import Mathlib

/-!
# RTEMS startup task for EPICS (`src/libCom/osi/os/RTEMS/rtems_init.c`)

A shallow embedding of the startup task.  Every call that leaves the file
(the C library, the RTEMS kernel, the BSD network stack, the EPICS libraries)
is recorded as an `Event` in a trace, in program order.  What such a call
answers is read from an `Env`.  A C string is the list of its characters
before the terminating NUL.
-/

namespace RtemsInit

/-! ## Data model -/

/-- Symbolic `syslog.h` constants used by the file. -/
inductive SyslogConst where
  | LOG_ALERT
  | LOG_NOTICE
  | LOG_CONS
  | LOG_DAEMON
  deriving DecidableEq, Repr

/-- One variadic argument handed to a `printf`-style function. -/
inductive FmtArg where
  | str (s : List Char)
  | int (i : Int)
  deriving DecidableEq, Repr

/-- A character buffer obtained from `malloc`: its size in bytes and the C
string it currently holds (the bytes before the NUL). -/
structure Buffer where
  size : Nat
  content : List Char
  deriving DecidableEq, Repr

/-- An open `FILE *`, identified by the path it was opened on. -/
structure FILE where
  path : List Char
  deriving DecidableEq, Repr

/-- The kernel's `Semaphore_Control` as far as `rtems_showSem` reads it.  `name` is the
memory `Object.name` points to; `mutex_lock` and `semaphore_count` are the two
members of `Core_control`. -/
structure Semaphore_Control where
  name : List Char
  id : Nat
  attribute_set : Nat
  mutex_lock : Nat
  semaphore_count : Nat
  deriving DecidableEq, Repr

/-- The part of `_Semaphore_Information` the file reads: the slot count and the
table of control-block pointers (`none` is a NULL slot). -/
structure Objects_Information where
  maximum : Nat
  local_table : Nat → Option Semaphore_Control

/-- A call that leaves the file, with the arguments it was given. -/
inductive Event where
  | putenv (s : List Char)
  | printf (text : List Char)
  | fflush_stdout
  | getchar (c : Option Char)
  | vsyslog (priority : SyslogConst) (format : List Char) (ap : List FmtArg)
  | syslog (priority : SyslogConst) (format : List Char) (args : List FmtArg)
  | openlog (ident : List Char) (option facility : SyslogConst)
  | rtems_clock_get_ticks_per_second
  | rtems_task_wake_after (ticks : Nat)
  | rtems_panic (msg : List Char)
  | malloc (size : Nat)
  | realloc (block : Option Buffer) (size : Nat)
  | free (block : Option Buffer)
  | fopen (path : List Char) (mode : List Char)
  | fclose (fp : FILE)
  | ioccrf (fp : Option FILE) (name : Option (List Char))
  | rtems_bsdnet_initialize_network
  | rtems_bsdnet_initialize_tftp_filesystem
  | rtems_bsdnet_synchronize_ntp (interval : Nat) (priority : Nat)
  | clockInit
  | threadInit
  | ioccrfrRegister
  | registerRecordDeviceDriverRegister
  | threadSleep (seconds : Nat)
  deriving DecidableEq, Repr

/-- What the collaborators answer.  For a call whose answer is an `Option`
status or a `Bool`, `none` and `false` mean that the call keeps control and
never comes back (as `rtems_panic` does). -/
structure Env where
  /-- Does `malloc (size)` hand out a block? -/
  malloc : Nat → Bool
  /-- Does `realloc (_, size)` hand out a block? -/
  realloc : Nat → Bool
  /-- Text `inet_ntop (AF_INET, &rtems_bsdnet_bootp_server_address, dst, size)`
  writes for a destination of `size` bytes; `none` is a NULL return. -/
  inet_ntop : Nat → Option (List Char)
  /-- Name `gethostname (dst, namelen)` writes; `none` is a nonzero return. -/
  gethostname : Nat → Option (List Char)
  /-- Does `fopen (path, "r")` succeed? -/
  fopen : List Char → Bool
  /-- Value `rtems_clock_get (RTEMS_CLOCK_GET_TICKS_PER_SECOND, _)` stores. -/
  ticksPerSecond : Nat
  /-- Text of a kernel status code. -/
  rtems_status_text : Nat → List Char
  /-- The bit `RTEMS_BINARY_SEMAPHORE` of the kernel's attribute header. -/
  RTEMS_BINARY_SEMAPHORE : Nat
  rtems_bsdnet_initialize_network : Option Int
  rtems_bsdnet_initialize_tftp_filesystem : Option Int
  rtems_bsdnet_synchronize_ntp : Option Int
  clockInit : Bool
  threadInit : Bool
  ioccrfrRegister : Bool
  registerRecordDeviceDriverRegister : Bool
  threadSleep : Bool
  ioccrf : Option FILE → Option (List Char) → Option Int

/-- The mutable world: the calls made so far, the unread console input and the
kernel's semaphore table. -/
structure State where
  trace : List Event
  stdin : List Char
  semaphores : Objects_Information

/-- How a piece of the program ends. -/
inductive Outcome (α : Type) where
  /-- control came back to the caller -/
  | returned (value : α)
  /-- the call `rtems_panic (msg)` was reached: the node is halted -/
  | fatal (msg : List Char)
  /-- a collaborator other than `rtems_panic` kept control -/
  | noreturn
  /-- the C program has no defined behaviour from here on -/
  | undefined
  deriving DecidableEq, Repr

/-- A C function of this file: it reads the collaborators' answers, changes the
world and ends in an `Outcome`. -/
def M (α : Type) : Type := Env → State → Outcome α × State

/-- Sequencing: what follows runs only when the first part returns. -/
def M.bind {α β : Type} (m : M α) (f : α → M β) : M β := fun env s =>
  match m env s with
  | (Outcome.returned a, s1) => f a env s1
  | (Outcome.fatal msg, s1) => (Outcome.fatal msg, s1)
  | (Outcome.noreturn, s1) => (Outcome.noreturn, s1)
  | (Outcome.undefined, s1) => (Outcome.undefined, s1)

instance : Monad M where
  pure a := fun _ s => (Outcome.returned a, s)
  bind := M.bind

/-- Append a call to the trace. -/
def emit (e : Event) : M Unit := fun _ s =>
  (Outcome.returned (), { s with trace := s.trace ++ [e] })

/-- Read one of the collaborators' answers. -/
def ask {α : Type} (f : Env → α) : M α := fun env s => (Outcome.returned (f env), s)

/-- Undefined behaviour. -/
def undef {α : Type} : M α := fun _ s => (Outcome.undefined, s)

/-- A call to a collaborator that either comes back or keeps control. -/
def call (e : Event) (comesBack : Env → Bool) : M Unit := fun env s =>
  let s1 := { s with trace := s.trace ++ [e] }
  if comesBack env then (Outcome.returned (), s1) else (Outcome.noreturn, s1)

/-! ## Collaborators -/

/-- Modelled from the spec: the kernel halt primitive `rtems_panic` is not part
of the source file; the spec describes it as accepting a text message and not
returning. -/
def rtems_panic (msg : List Char) : M Unit := fun _ s =>
  (Outcome.fatal msg, { s with trace := s.trace ++ [Event.rtems_panic msg] })

def rtems_clock_get_ticks_per_second : M Nat := do
  emit Event.rtems_clock_get_ticks_per_second
  ask Env.ticksPerSecond

def rtems_task_wake_after (ticks : Nat) : M Unit :=
  emit (Event.rtems_task_wake_after ticks)

def vsyslog (priority : SyslogConst) (format : List Char) (ap : List FmtArg) : M Unit :=
  emit (Event.vsyslog priority format ap)

def syslog (priority : SyslogConst) (format : List Char) (args : List FmtArg) : M Unit :=
  emit (Event.syslog priority format args)

def printf (text : List Char) : M Unit :=
  emit (Event.printf text)

/-! ## Fatal error reporting -/

/-- Delay for a while, then terminate. -/
def delayedPanic (msg : List Char) : M Unit := do
  let ticksPerSecond ← rtems_clock_get_ticks_per_second
  rtems_task_wake_after ticksPerSecond
  rtems_panic msg

/-- Log error and terminate.  `ap` are the variadic arguments. -/
def LogFatal (msg : List Char) (ap : List FmtArg) : M Unit := do
  vsyslog SyslogConst.LOG_ALERT msg ap
  delayedPanic msg

/-- Log RTEMS error and terminate. -/
def LogRtemsFatal (msg : List Char) (sc : Nat) : M Unit := do
  let text ← ask (fun env => env.rtems_status_text sc)
  syslog SyslogConst.LOG_ALERT "%s: %s".toList [FmtArg.str msg, FmtArg.str text]
  delayedPanic msg

/-- Log network error and terminate. -/
def LogNetFatal (msg : List Char) (err : Int) : M Unit := do
  syslog SyslogConst.LOG_ALERT "%s: %d".toList [FmtArg.str msg, FmtArg.int err]
  delayedPanic msg

/-! ## Remote file access -/

/-- The call `malloc (size)`: a fresh block, or NULL. -/
def malloc (size : Nat) : M (Option Buffer) := do
  emit (Event.malloc size)
  let ok ← ask (fun env => env.malloc size)
  pure (if ok then some { size := size, content := [] } else none)

/-- The call `realloc (block, size)`: the block resized with its bytes kept, or NULL. -/
def realloc (block : Option Buffer) (size : Nat) : M (Option Buffer) := do
  emit (Event.realloc block size)
  let ok ← ask (fun env => env.realloc size)
  if ok then
    match block with
    | none => pure (some { size := size, content := [] })
    | some b => pure (some { size := size, content := b.content.take size })
  else
    pure none

/-- The call `free (block)`. -/
def free (block : Option Buffer) : M Unit :=
  emit (Event.free block)

/-- The call `strlen (path)`. -/
def strlen (path : Option Buffer) : M Nat :=
  match path with
  | none => undef
  | some b => pure b.content.length

/-- The call `strcpy (&path[l], src)`: the bytes of `src` and a NUL are stored from
offset `l` on; storing through NULL or past the end of the block is undefined. -/
def strcpy (path : Option Buffer) (l : Nat) (src : List Char) : M (Option Buffer) :=
  match path with
  | none => undef
  | some b =>
    if l ≤ b.content.length ∧ l + src.length + 1 ≤ b.size then
      pure (some { b with content := b.content.take l ++ src })
    else
      undef

/-- The value of `path[l]`. -/
def charAt (path : Option Buffer) (l : Nat) : M Char :=
  match path with
  | none => undef
  | some b => if l ≤ b.content.length then pure (b.content.getD l '\x00') else undef

/-- The assignment `path[l] = c`. -/
def setChar (path : Option Buffer) (l : Nat) (c : Char) : M (Option Buffer) :=
  match path with
  | none => undef
  | some b =>
    if l ≤ b.content.length ∧ l < b.size then
      pure (some { b with content := b.content.take l ++ c :: b.content.drop (l + 1) })
    else
      undef

/-- The call `inet_ntop (AF_INET, &rtems_bsdnet_bootp_server_address, &path[l], size)`.
The first component says whether the result is non-NULL. -/
def inet_ntop (path : Option Buffer) (l size : Nat) : M (Bool × Option Buffer) := do
  match ← ask (fun env => env.inet_ntop size) with
  | none => pure (false, path)
  | some text =>
    if text.length + 1 ≤ size then
      let path ← strcpy path l text
      pure (true, path)
    else
      undef

/-- The call `gethostname (&path[l], namelen)`.  The first component says whether the
result is nonzero. -/
def gethostname (path : Option Buffer) (l namelen : Nat) : M (Bool × Option Buffer) := do
  match ← ask (fun env => env.gethostname namelen) with
  | none => pure (true, path)
  | some host =>
    if host.length + 1 ≤ namelen then
      let path ← strcpy path l host
      pure (false, path)
    else
      undef

/-- The `for (;;)` loop of `rtems_tftp_path`: `name` is advanced past every
leading `./` and `../`. -/
def skipDotSegments : List Char → List Char
  | '.' :: '/' :: rest => skipDotSegments rest
  | '.' :: '.' :: '/' :: rest => skipDotSegments rest
  | name => name

/-- Add TFTP server and target prefix to pathname. -/
def rtems_tftp_path (name : List Char) : M (Option Buffer) := do
  let pathsize := 200
  let path ← malloc pathsize
  if path = none then
    LogFatal "Can't create TFTP path name -- no memory.\n".toList []
  let path ← strcpy path 0 "/TFTP/".toList
  let l ← strlen path
  let (converted, path) ← inet_ntop path l (pathsize - l)
  if converted = false then
    LogFatal "Can't convert BOOTP server name".toList []
  let l ← strlen path
  let path ← strcpy path l "/epics/".toList
  let l ← strlen path
  let (failed, path) ← gethostname path l (pathsize - l)
  let noName ← (if failed then pure true else do
    let c ← charAt path l
    pure (decide (c = '\x00')))
  if noName then
    LogFatal "Can't get host name".toList []
  let l ← strlen path
  let path ← setChar path l '/'
  let l := l + 1
  let name := skipDotSegments name
  let path ← realloc path (l + 1 + name.length)
  let path ← strcpy path l name
  pure path

/-! ## RTEMS/EPICS commands -/

/-- The semaphore table as the kernel holds it now. -/
def semaphoreInformation : M Objects_Information := fun _ s =>
  (Outcome.returned s.semaphores, s)

/-- The test `isprint` in the C locale. -/
def isprint (c : Char) : Bool := decide (0x20 ≤ c.toNat ∧ c.toNat ≤ 0x7e)

/-- An `unsigned` argument read as an `int` by `%d`. -/
def toInt32 (v : Nat) : Int :=
  if v % 2 ^ 32 < 2 ^ 31 then Int.ofNat (v % 2 ^ 32) else Int.ofNat (v % 2 ^ 32) - 2 ^ 32

/-- The conversion `%<width>x` of an `unsigned`. -/
def fmt_x (width : Nat) (v : Nat) : List Char :=
  List.leftpad width ' ' (Nat.toDigits 16 (v % 2 ^ 32))

/-- The conversion `%<width>d` of an `int`. -/
def fmt_d (width : Nat) (v : Int) : List Char :=
  List.leftpad width ' ' (if v < 0 then '-' :: Nat.toDigits 10 v.natAbs
    else Nat.toDigits 10 v.natAbs)

/-- The four bytes `cbuf` is filled with: the name's bytes, a blank for each
one that does not print. -/
def cbufOf (cp : List Char) : List Char :=
  (List.range 4).map (fun j => if isprint (cp.getD j '\x00') then cp.getD j '\x00' else ' ')

/-- The text of `printf ("%4.4s%9x%5x%5d", cbuf, id, attribute_set, value)`. -/
def semEntry (binaryBit : Nat) (sem : Semaphore_Control) : List Char :=
  cbufOf sem.name ++ fmt_x 9 sem.id ++ fmt_x 5 sem.attribute_set ++
    fmt_d 5 (toInt32 (if sem.attribute_set &&& binaryBit ≠ 0 then sem.mutex_lock
      else sem.semaphore_count))

/-- The body of the `for` loop of `rtems_showSem`, run for the slots `slots`
with `n` entries shown so far; the result is the new `n`. -/
def showSemLoop (info : Objects_Information) : List Nat → Nat → M Nat
  | [], n => pure n
  | i :: slots, n =>
    match info.local_table i with
    | some sem => do
      let binaryBit ← ask Env.RTEMS_BINARY_SEMAPHORE
      printf (semEntry binaryBit sem)
      let n := n + 1
      if n % 3 = 0 then
        printf "\n".toList
      else
        printf "   ".toList
      showSemLoop info slots n
    | none => showSemLoop info slots n

/-- The command `rtems_showSem`.  The slot count is far below `2 ^ 31`
(`CONFIGURE_MAXIMUM_SEMAPHORES` is 220), so `i` and `n` are plain naturals. -/
def rtems_showSem : M Int := do
  let info ← semaphoreInformation
  let n ← showSemLoop info (List.range info.maximum) 0
  if n % 3 ≠ 0 then
    printf "\n".toList
  printf (fmt_d 0 (Int.ofNat n) ++ "/".toList ++ fmt_d 0 (Int.ofNat info.maximum) ++ "\n".toList)
  pure 0

/-- The call `fopen (path, mode)`. -/
def fopen (path : Option Buffer) (mode : List Char) : M (Option FILE) :=
  match path with
  | none => undef
  | some b => do
    emit (Event.fopen b.content mode)
    let ok ← ask (fun env => env.fopen b.content)
    pure (if ok then some ⟨b.content⟩ else none)

/-- The call `fclose (fp)`. -/
def fclose (fp : Option FILE) : M Unit :=
  match fp with
  | none => undef
  | some f => emit (Event.fclose f)

/-- The call `ioccrf (fp, name)`: the command interpreter; it may keep control. -/
def ioccrf (fp : Option FILE) (name : Option (List Char)) : M Unit :=
  call (Event.ioccrf fp name) (fun env => (env.ioccrf fp name).isSome)

/-- Run a script through the command interpreter. -/
def runScriptRTEMS (name : List Char) : M Unit := do
  let cp ← rtems_tftp_path name
  let fp ← fopen cp "r".toList
  if fp = none then
    printf ("Can't open script (".toList ++ name ++ ")\n".toList)
  else do
    ioccrf fp (some name)
    fclose fp
  free cp

/-- The call `getchar ()`: the next character of the console input, `none` at its end. -/
def getchar : M (Option Char) := fun _ s =>
  match s.stdin with
  | [] => (Outcome.returned none, { s with trace := s.trace ++ [Event.getchar none] })
  | c :: rest =>
    (Outcome.returned (some c),
      { s with trace := s.trace ++ [Event.getchar (some c)], stdin := rest })

/-- The loop `while ((c != '\n') && (c != EOF)) c = getchar ();` started with
`c` on the input `stdin`: the `getchar` calls it makes and the input it leaves. -/
def drainLine : List Char → Option Char → List Event × List Char
  | [], c =>
    if c ≠ some '\n' ∧ c ≠ none then ([Event.getchar none], []) else ([], [])
  | d :: rest, c =>
    if c ≠ some '\n' ∧ c ≠ none then
      ((Event.getchar (some d)) :: (drainLine rest (some d)).1, (drainLine rest (some d)).2)
    else ([], d :: rest)

/-- The `while` loop of `rtems_reboot` as a step of the program. -/
def skipRestOfLine (c : Option Char) : M Unit := fun _ s =>
  (Outcome.returned (),
    { s with trace := s.trace ++ (drainLine s.stdin c).1, stdin := (drainLine s.stdin c).2 })

set_option linter.unusedVariables false in
/-- The command `rtems_reboot`; `name` is not used. -/
def rtems_reboot (name : List Char) : M Unit := do
  printf "Are you sure you want to reboot the IOC? ".toList
  emit Event.fflush_stdout
  let c ← getchar
  if c = some 'Y' then
    LogFatal "Reboot".toList []
  skipRestOfLine c

/-! ## RTEMS startup task -/

/-- A call to a collaborator that reports a status, or keeps control. -/
def callStatus (e : Event) (answer : Env → Option Int) : M Int := fun env s =>
  match answer env with
  | some status => (Outcome.returned status, { s with trace := s.trace ++ [e] })
  | none => (Outcome.noreturn, { s with trace := s.trace ++ [e] })

set_option linter.unusedVariables false in
/-- The RTEMS startup task; its argument is not used. -/
def Init (ignored : Nat) : M Unit := do
  emit (Event.putenv "TERM=xterm".toList)
  emit (Event.putenv "PS1=rtems> ".toList)
  emit (Event.putenv "HISTSIZE=10".toList)
  emit (Event.putenv "IFS= \t,()".toList)
  printf "***** Initializing network *****\n".toList
  let _ ← callStatus Event.rtems_bsdnet_initialize_network Env.rtems_bsdnet_initialize_network
  printf "***** Initializing TFTP *****\n".toList
  let _ ← callStatus Event.rtems_bsdnet_initialize_tftp_filesystem
    Env.rtems_bsdnet_initialize_tftp_filesystem
  printf "***** Initializing NTP *****\n".toList
  let _ ← callStatus (Event.rtems_bsdnet_synchronize_ntp 0 0) Env.rtems_bsdnet_synchronize_ntp
  printf "***** Initializing syslog *****\n".toList
  emit (Event.openlog "IOC".toList SyslogConst.LOG_CONS SyslogConst.LOG_DAEMON)
  syslog SyslogConst.LOG_NOTICE "IOC started.".toList []
  call Event.clockInit Env.clockInit
  call Event.threadInit Env.threadInit
  printf "***** Executing EPICS startup script *****\n".toList
  call Event.ioccrfrRegister Env.ioccrfrRegister
  call Event.registerRecordDeviceDriverRegister Env.registerRecordDeviceDriverRegister
  runScriptRTEMS "st.cmd".toList
  call (Event.threadSleep 2) Env.threadSleep
  ioccrf none none
  LogFatal "Console command interpreter terminated".toList []

/-! ## Reading a trace -/

/-- The text a run of calls writes to the standard output. -/
def stdoutText : List Event → List Char
  | [] => []
  | Event.printf text :: rest => text ++ stdoutText rest
  | _ :: rest => stdoutText rest

/-- The control blocks of the non-null slots among the `maximum` slots
`rtems_showSem` scans, in slot order. -/
def liveEntries (info : Objects_Information) : List Semaphore_Control :=
  (List.range info.maximum).filterMap info.local_table

/-- The two `printf` calls `rtems_showSem` makes for the entry that brings the
count of entries shown from `p.1` to `p.1 + 1`. -/
def entryCalls (binaryBit : Nat) (p : Nat × Semaphore_Control) : List Event :=
  [Event.printf (semEntry binaryBit p.2),
   Event.printf (if (p.1 + 1) % 3 = 0 then "\n".toList else "   ".toList)]

/-- A piece of the program only ever adds calls to the trace. -/
structure TraceGrows {α : Type} (m : M α) : Prop where
  grows : ∀ (env : Env) (s : State), s.trace <+: (m env s).2.trace

/-! ## Sample worlds -/

/-- A node on which every collaborator succeeds: a 50 Hz clock
(`CONFIGURE_MICROSECONDS_PER_TICK` is 20000), server 192.168.1.1, host `ioc1`. -/
def sampleEnv : Env where
  malloc := fun _ => true
  realloc := fun _ => true
  inet_ntop := fun _ => some "192.168.1.1".toList
  gethostname := fun _ => some "ioc1".toList
  fopen := fun _ => true
  ticksPerSecond := 50
  rtems_status_text := fun _ => "RTEMS_INTERNAL_ERROR".toList
  RTEMS_BINARY_SEMAPHORE := 0x10
  rtems_bsdnet_initialize_network := some 0
  rtems_bsdnet_initialize_tftp_filesystem := some 0
  rtems_bsdnet_synchronize_ntp := some 0
  clockInit := true
  threadInit := true
  ioccrfrRegister := true
  registerRecordDeviceDriverRegister := true
  threadSleep := true
  ioccrf := fun fp _ => if fp = none then none else some 0

/-- A start with nothing printed, an empty console and no semaphore. -/
def sampleState : State where
  trace := []
  stdin := []
  semaphores := { maximum := 0, local_table := fun _ => none }

/-- The sample node, except that the `realloc` in `rtems_tftp_path` finds no
memory. -/
def envReallocFails : Env := { sampleEnv with realloc := fun _ => false }

/-- A table of six slots of which four hold a semaphore. -/
def semState : State where
  trace := []
  stdin := []
  semaphores :=
    { maximum := 6
      local_table := fun i =>
        if i = 1 then some ⟨"SEM1".toList, 0x101, 0x10, 1, 0⟩
        else if i = 2 then some ⟨"a\tb".toList, 0x102, 0x4, 0, 7⟩
        else if i = 4 then some ⟨"LOCK".toList, 0x103, 0x54, 0, 0⟩
        else if i = 5 then some ⟨"cntr".toList, 0x104, 0, 0, 12⟩
        else none }

/-- The sample node, except that network bring-up reports failure. -/
def envNetworkFails : Env := { sampleEnv with rtems_bsdnet_initialize_network := some (-1) }

/-- The sample node, except that time synchronisation reports failure and the
console interpreter comes back (its input was closed). -/
def envNtpFails : Env :=
  { sampleEnv with rtems_bsdnet_synchronize_ntp := some (-1), ioccrf := fun _ _ => some 0 }

/-- The sample node, except that no script can be opened. -/
def envNoScript : Env := { sampleEnv with fopen := fun _ => false }

/-! ## Stepping lemmas -/

theorem bind_run {α β : Type} (m : M α) (f : α → M β) (env : Env) (s : State) :
    (m >>= f) env s = M.bind m f env s := rfl

theorem pure_run {α : Type} (a : α) (env : Env) (s : State) :
    (pure a : M α) env s = (Outcome.returned a, s) := rfl

theorem malloc_run (size : Nat) (env : Env) (s : State) :
    malloc size env s =
      (Outcome.returned (if env.malloc size = true then some ⟨size, []⟩ else none),
        { s with trace := s.trace ++ [Event.malloc size] }) := by
  simp [malloc, emit, ask, bind, M.bind, pure]

theorem strlen_at (size : Nat) (c : List Char) (n : Nat) (h : n = c.length) (env : Env)
    (s : State) : strlen (some ⟨size, c⟩) env s = (Outcome.returned n, s) := by
  subst h; rfl

theorem strcpy_at (size : Nat) (c src : List Char) (l : Nat) (hl : l = c.length)
    (h : l + src.length + 1 ≤ size) (env : Env) (s : State) :
    strcpy (some ⟨size, c⟩) l src env s = (Outcome.returned (some ⟨size, c ++ src⟩), s) := by
  subst hl; simp [strcpy, pure, h]

theorem strcpy_over (size : Nat) (c src : List Char) (l : Nat)
    (h : ¬ l + src.length + 1 ≤ size) (env : Env) (s : State) :
    strcpy (some ⟨size, c⟩) l src env s = (Outcome.undefined, s) := by
  simp [strcpy, h, undef]

theorem charAt_at (size : Nat) (c d : List Char) (l : Nat) (hl : l = c.length) (env : Env)
    (s : State) :
    charAt (some ⟨size, c ++ d⟩) l env s = (Outcome.returned (d.getD 0 '\x00'), s) := by
  subst hl
  have h : (c ++ d)[c.length]? = d[0]? := by
    rw [List.getElem?_append_right (Nat.le_refl _)]; simp
  simp [charAt, pure, h]

theorem setChar_at (size : Nat) (c : List Char) (l : Nat) (ch : Char) (hl : l = c.length)
    (h : l < size) (env : Env) (s : State) :
    setChar (some ⟨size, c⟩) l ch env s = (Outcome.returned (some ⟨size, c ++ [ch]⟩), s) := by
  subst hl; simp [setChar, pure, h]

theorem inet_ntop_at (size : Nat) (c text : List Char) (l n : Nat) (env : Env)
    (ha : env.inet_ntop n = some text) (hn : text.length + 1 ≤ n) (hl : l = c.length)
    (h : l + text.length + 1 ≤ size) (s : State) :
    inet_ntop (some ⟨size, c⟩) l n env s =
      (Outcome.returned (true, some ⟨size, c ++ text⟩), s) := by
  simp [inet_ntop, ask, bind, M.bind, pure, ha, hn, strcpy_at size c text l hl h]

theorem gethostname_at (size : Nat) (c host : List Char) (l n : Nat) (env : Env)
    (hh : env.gethostname n = some host) (hn : host.length + 1 ≤ n) (hl : l = c.length)
    (h : l + host.length + 1 ≤ size) (s : State) :
    gethostname (some ⟨size, c⟩) l n env s =
      (Outcome.returned (false, some ⟨size, c ++ host⟩), s) := by
  simp [gethostname, ask, bind, M.bind, pure, hh, hn, strcpy_at size c host l hl h]

theorem inet_ntop_null (b : Option Buffer) (l n : Nat) (env : Env)
    (ha : env.inet_ntop n = none) (s : State) :
    inet_ntop b l n env s = (Outcome.returned (false, b), s) := by
  simp [inet_ntop, ask, bind, M.bind, pure, ha]

theorem inet_ntop_over (size : Nat) (c text : List Char) (l n : Nat) (env : Env)
    (ha : env.inet_ntop n = some text) (h : ¬ l + text.length + 1 ≤ size ∨ ¬ text.length + 1 ≤ n)
    (s : State) :
    inet_ntop (some ⟨size, c⟩) l n env s = (Outcome.undefined, s) := by
  by_cases hn : text.length + 1 ≤ n
  · have h1 : ¬ l + text.length + 1 ≤ size := by tauto
    simp [inet_ntop, ask, bind, M.bind, pure, ha, hn, strcpy_over size c text l h1]
  · simp [inet_ntop, ask, bind, M.bind, pure, ha, hn, undef]

theorem gethostname_fail (b : Option Buffer) (l n : Nat) (env : Env)
    (hh : env.gethostname n = none) (s : State) :
    gethostname b l n env s = (Outcome.returned (true, b), s) := by
  simp [gethostname, ask, bind, M.bind, pure, hh]

theorem gethostname_over (b : Option Buffer) (host : List Char) (l n : Nat) (env : Env)
    (hh : env.gethostname n = some host) (h : ¬ host.length + 1 ≤ n) (s : State) :
    gethostname b l n env s = (Outcome.undefined, s) := by
  simp [gethostname, ask, bind, M.bind, pure, hh, h, undef]

theorem strcpy_null (l : Nat) (src : List Char) (env : Env) (s : State) :
    strcpy none l src env s = (Outcome.undefined, s) := rfl

theorem realloc_run (size n : Nat) (c : List Char) (env : Env) (hc : c.length ≤ n)
    (s : State) :
    realloc (some ⟨size, c⟩) n env s =
      (Outcome.returned (if env.realloc n = true then some ⟨n, c⟩ else none),
        { s with trace := s.trace ++ [Event.realloc (some ⟨size, c⟩) n] }) := by
  by_cases h : env.realloc n = true <;>
    simp [realloc, emit, ask, bind, M.bind, pure, h, List.take_of_length_le hc]

theorem LogFatal_run (msg : List Char) (ap : List FmtArg) (env : Env) (s : State) :
    LogFatal msg ap env s =
      (Outcome.fatal msg, { s with trace := s.trace ++ [Event.vsyslog SyslogConst.LOG_ALERT msg ap,
        Event.rtems_clock_get_ticks_per_second, Event.rtems_task_wake_after env.ticksPerSecond,
        Event.rtems_panic msg] }) := by
  simp [LogFatal, delayedPanic, vsyslog, rtems_clock_get_ticks_per_second, rtems_task_wake_after,
    rtems_panic, emit, ask, bind, M.bind]

/-! ## Path translation -/

theorem tftp_ok (name addr host : List Char) (env : Env) (s : State)
    (hm : env.malloc 200 = true)
    (ha : env.inet_ntop 194 = some addr)
    (hh : env.gethostname (187 - addr.length) = some host)
    (hne : host.getD 0 '\x00' ≠ '\x00')
    (hfit : 13 + addr.length + host.length < 200)
    (hr : env.realloc (13 + addr.length + host.length + 1 + 1 + (skipDotSegments name).length) = true) :
    rtems_tftp_path name env s =
      (Outcome.returned (some { size := 13 + addr.length + host.length + 1 + 1 + (skipDotSegments name).length, content := "/TFTP/".toList ++ addr ++ "/epics/".toList ++ host ++ "/".toList ++ skipDotSegments name }),
       { s with trace := s.trace ++ [Event.malloc 200, Event.realloc (some { size := 200, content := "/TFTP/".toList ++ addr ++ "/epics/".toList ++ host ++ "/".toList }) (13 + addr.length + host.length + 1 + 1 + (skipDotSegments name).length)] }) := by
  have hh1 : env.gethostname (200 - (13 + addr.length)) = some host := by
    rw [show 200 - (13 + addr.length) = 187 - addr.length by omega]; exact hh
  have e2 : ∀ s : State, strcpy (some ⟨200, []⟩) 0 "/TFTP/".toList env s =
      (Outcome.returned (some ⟨200, "/TFTP/".toList⟩), s) :=
    strcpy_at 200 [] "/TFTP/".toList 0 rfl (by decide) env
  have e3 := strlen_at 200 "/TFTP/".toList 6 (by decide) env
  have e4 := inet_ntop_at 200 "/TFTP/".toList addr 6 (200 - 6) env ha (by omega)
    (by decide) (by omega)
  have e5 := strlen_at 200 ("/TFTP/".toList ++ addr) (6 + addr.length) (by simp; omega) env
  have e6 := strcpy_at 200 ("/TFTP/".toList ++ addr) "/epics/".toList (6 + addr.length)
    (by simp; omega) (by simp; omega) env
  have e7 := strlen_at 200 ("/TFTP/".toList ++ addr ++ "/epics/".toList) (13 + addr.length)
    (by simp; omega) env
  have e8 := gethostname_at 200 ("/TFTP/".toList ++ addr ++ "/epics/".toList) host
    (13 + addr.length) (200 - (13 + addr.length)) env hh1 (by omega) (by simp; omega) (by omega)
  have e9 := charAt_at 200 ("/TFTP/".toList ++ addr ++ "/epics/".toList) host
    (13 + addr.length) (by simp; omega) env
  have e10 := strlen_at 200 ("/TFTP/".toList ++ addr ++ "/epics/".toList ++ host)
    (13 + addr.length + host.length) (by simp; omega) env
  have e11 := setChar_at 200 ("/TFTP/".toList ++ addr ++ "/epics/".toList ++ host)
    (13 + addr.length + host.length) '/' (by simp; omega) (by omega) env
  have e12 := realloc_run 200 (13 + addr.length + host.length + 1 + 1 + (skipDotSegments name).length)
    ("/TFTP/".toList ++ addr ++ "/epics/".toList ++ host ++ ['/']) env (by simp; omega)
  have e13 := strcpy_at (13 + addr.length + host.length + 1 + 1 + (skipDotSegments name).length)
    ("/TFTP/".toList ++ addr ++ "/epics/".toList ++ host ++ ['/']) (skipDotSegments name)
    (13 + addr.length + host.length + 1) (by simp; omega) (by omega) env
  simp only [rtems_tftp_path, bind, M.bind, malloc_run, hm, e2, e3, e4, e5, e6, e7, e8, e9, e10,
    e11, e12, e13, hr, hne, reduceCtorEq, if_false, if_true, pure, decide_False,
    Bool.false_eq_true]
  simp

theorem tftp_malloc_fail (name : List Char) (env : Env) (s : State)
    (hm : env.malloc 200 = false) :
    rtems_tftp_path name env s =
      (Outcome.fatal "Can't create TFTP path name -- no memory.\n".toList,
       { s with trace := s.trace ++ [Event.malloc 200,
          Event.vsyslog SyslogConst.LOG_ALERT "Can't create TFTP path name -- no memory.\n".toList [],
          Event.rtems_clock_get_ticks_per_second, Event.rtems_task_wake_after env.ticksPerSecond,
          Event.rtems_panic "Can't create TFTP path name -- no memory.\n".toList] }) := by
  simp only [rtems_tftp_path, bind, M.bind, malloc_run, hm, LogFatal_run, if_true, if_false,
    Bool.false_eq_true]
  simp

theorem tftp_ntop_fail (name : List Char) (env : Env) (s : State)
    (hm : env.malloc 200 = true) (ha : env.inet_ntop 194 = none) :
    rtems_tftp_path name env s =
      (Outcome.fatal "Can't convert BOOTP server name".toList,
       { s with trace := s.trace ++ [Event.malloc 200,
          Event.vsyslog SyslogConst.LOG_ALERT "Can't convert BOOTP server name".toList [],
          Event.rtems_clock_get_ticks_per_second, Event.rtems_task_wake_after env.ticksPerSecond,
          Event.rtems_panic "Can't convert BOOTP server name".toList] }) := by
  have e2 : ∀ s : State, strcpy (some ⟨200, []⟩) 0 "/TFTP/".toList env s =
      (Outcome.returned (some ⟨200, "/TFTP/".toList⟩), s) :=
    strcpy_at 200 [] "/TFTP/".toList 0 rfl (by decide) env
  have e3 := strlen_at 200 "/TFTP/".toList 6 (by decide) env
  have e4 := inet_ntop_null (some ⟨200, "/TFTP/".toList⟩) 6 (200 - 6) env ha
  simp only [rtems_tftp_path, bind, M.bind, malloc_run, hm, e2, e3, e4, LogFatal_run,
    reduceCtorEq, if_false, if_true, pure]
  simp

theorem tftp_addr_long (name addr : List Char) (env : Env) (s : State)
    (hm : env.malloc 200 = true) (ha : env.inet_ntop 194 = some addr)
    (hlong : ¬ addr.length ≤ 186) :
    (rtems_tftp_path name env s).1 = Outcome.undefined := by
  have e2 : ∀ s : State, strcpy (some ⟨200, []⟩) 0 "/TFTP/".toList env s =
      (Outcome.returned (some ⟨200, "/TFTP/".toList⟩), s) :=
    strcpy_at 200 [] "/TFTP/".toList 0 rfl (by decide) env
  have e3 := strlen_at 200 "/TFTP/".toList 6 (by decide) env
  by_cases h : addr.length ≤ 193
  · have e4 := inet_ntop_at 200 "/TFTP/".toList addr 6 (200 - 6) env ha (by omega)
      (by decide) (by omega)
    have e5 := strlen_at 200 ("/TFTP/".toList ++ addr) (6 + addr.length) (by simp; omega) env
    have e6 := strcpy_over 200 ("/TFTP/".toList ++ addr) "/epics/".toList (6 + addr.length)
      (by simp; omega) env
    simp only [rtems_tftp_path, bind, M.bind, malloc_run, hm, e2, e3, e4, e5, e6,
      reduceCtorEq, if_false, if_true, pure, Bool.true_eq_false]
  · have e4 := inet_ntop_over 200 "/TFTP/".toList addr 6 (200 - 6) env ha
      (Or.inr (by omega))
    simp only [rtems_tftp_path, bind, M.bind, malloc_run, hm, e2, e3, e4,
      reduceCtorEq, if_false, if_true, pure]

theorem tftp_hostname_fail (name addr : List Char) (env : Env) (s : State)
    (hm : env.malloc 200 = true) (ha : env.inet_ntop 194 = some addr)
    (hfit : addr.length ≤ 186)
    (hh : env.gethostname (187 - addr.length) = none) :
    rtems_tftp_path name env s =
      (Outcome.fatal "Can't get host name".toList,
       { s with trace := s.trace ++ [Event.malloc 200,
          Event.vsyslog SyslogConst.LOG_ALERT "Can't get host name".toList [],
          Event.rtems_clock_get_ticks_per_second, Event.rtems_task_wake_after env.ticksPerSecond,
          Event.rtems_panic "Can't get host name".toList] }) := by
  have hh1 : env.gethostname (200 - (13 + addr.length)) = none := by
    rw [show 200 - (13 + addr.length) = 187 - addr.length by omega]; exact hh
  have e2 : ∀ s : State, strcpy (some ⟨200, []⟩) 0 "/TFTP/".toList env s =
      (Outcome.returned (some ⟨200, "/TFTP/".toList⟩), s) :=
    strcpy_at 200 [] "/TFTP/".toList 0 rfl (by decide) env
  have e3 := strlen_at 200 "/TFTP/".toList 6 (by decide) env
  have e4 := inet_ntop_at 200 "/TFTP/".toList addr 6 (200 - 6) env ha (by omega)
    (by decide) (by omega)
  have e5 := strlen_at 200 ("/TFTP/".toList ++ addr) (6 + addr.length) (by simp; omega) env
  have e6 := strcpy_at 200 ("/TFTP/".toList ++ addr) "/epics/".toList (6 + addr.length)
    (by simp; omega) (by simp; omega) env
  have e7 := strlen_at 200 ("/TFTP/".toList ++ addr ++ "/epics/".toList) (13 + addr.length)
    (by simp; omega) env
  have e8 := gethostname_fail (some ⟨200, "/TFTP/".toList ++ addr ++ "/epics/".toList⟩)
    (13 + addr.length) (200 - (13 + addr.length)) env hh1
  simp only [rtems_tftp_path, bind, M.bind, malloc_run, hm, e2, e3, e4, e5, e6, e7, e8,
    LogFatal_run, reduceCtorEq, if_false, if_true, pure, Bool.true_eq_false]
  simp

theorem tftp_host_long (name addr host : List Char) (env : Env) (s : State)
    (hm : env.malloc 200 = true) (ha : env.inet_ntop 194 = some addr)
    (hfit : addr.length ≤ 186)
    (hh : env.gethostname (187 - addr.length) = some host)
    (hlong : ¬ 13 + addr.length + host.length < 200) :
    (rtems_tftp_path name env s).1 = Outcome.undefined := by
  have hh1 : env.gethostname (200 - (13 + addr.length)) = some host := by
    rw [show 200 - (13 + addr.length) = 187 - addr.length by omega]; exact hh
  have e2 : ∀ s : State, strcpy (some ⟨200, []⟩) 0 "/TFTP/".toList env s =
      (Outcome.returned (some ⟨200, "/TFTP/".toList⟩), s) :=
    strcpy_at 200 [] "/TFTP/".toList 0 rfl (by decide) env
  have e3 := strlen_at 200 "/TFTP/".toList 6 (by decide) env
  have e4 := inet_ntop_at 200 "/TFTP/".toList addr 6 (200 - 6) env ha (by omega)
    (by decide) (by omega)
  have e5 := strlen_at 200 ("/TFTP/".toList ++ addr) (6 + addr.length) (by simp; omega) env
  have e6 := strcpy_at 200 ("/TFTP/".toList ++ addr) "/epics/".toList (6 + addr.length)
    (by simp; omega) (by simp; omega) env
  have e7 := strlen_at 200 ("/TFTP/".toList ++ addr ++ "/epics/".toList) (13 + addr.length)
    (by simp; omega) env
  have e8 := gethostname_over (some ⟨200, "/TFTP/".toList ++ addr ++ "/epics/".toList⟩) host
    (13 + addr.length) (200 - (13 + addr.length)) env hh1 (by omega)
  simp only [rtems_tftp_path, bind, M.bind, malloc_run, hm, e2, e3, e4, e5, e6, e7, e8,
    reduceCtorEq, if_false, if_true, pure, Bool.true_eq_false]

theorem tftp_host_empty (name addr host : List Char) (env : Env) (s : State)
    (hm : env.malloc 200 = true) (ha : env.inet_ntop 194 = some addr)
    (hh : env.gethostname (187 - addr.length) = some host)
    (hfit : 13 + addr.length + host.length < 200)
    (hemp : host.getD 0 '\x00' = '\x00') :
    rtems_tftp_path name env s =
      (Outcome.fatal "Can't get host name".toList,
       { s with trace := s.trace ++ [Event.malloc 200,
          Event.vsyslog SyslogConst.LOG_ALERT "Can't get host name".toList [],
          Event.rtems_clock_get_ticks_per_second, Event.rtems_task_wake_after env.ticksPerSecond,
          Event.rtems_panic "Can't get host name".toList] }) := by
  have hh1 : env.gethostname (200 - (13 + addr.length)) = some host := by
    rw [show 200 - (13 + addr.length) = 187 - addr.length by omega]; exact hh
  have e2 : ∀ s : State, strcpy (some ⟨200, []⟩) 0 "/TFTP/".toList env s =
      (Outcome.returned (some ⟨200, "/TFTP/".toList⟩), s) :=
    strcpy_at 200 [] "/TFTP/".toList 0 rfl (by decide) env
  have e3 := strlen_at 200 "/TFTP/".toList 6 (by decide) env
  have e4 := inet_ntop_at 200 "/TFTP/".toList addr 6 (200 - 6) env ha (by omega)
    (by decide) (by omega)
  have e5 := strlen_at 200 ("/TFTP/".toList ++ addr) (6 + addr.length) (by simp; omega) env
  have e6 := strcpy_at 200 ("/TFTP/".toList ++ addr) "/epics/".toList (6 + addr.length)
    (by simp; omega) (by simp; omega) env
  have e7 := strlen_at 200 ("/TFTP/".toList ++ addr ++ "/epics/".toList) (13 + addr.length)
    (by simp; omega) env
  have e8 := gethostname_at 200 ("/TFTP/".toList ++ addr ++ "/epics/".toList) host
    (13 + addr.length) (200 - (13 + addr.length)) env hh1 (by omega) (by simp; omega) (by omega)
  have e9 := charAt_at 200 ("/TFTP/".toList ++ addr ++ "/epics/".toList) host
    (13 + addr.length) (by simp; omega) env
  simp only [rtems_tftp_path, bind, M.bind, malloc_run, hm, e2, e3, e4, e5, e6, e7, e8, e9,
    hemp, LogFatal_run, reduceCtorEq, if_false, if_true, pure, decide_True,
    Bool.true_eq_false, Bool.false_eq_true]
  simp

theorem tftp_realloc_fail (name addr host : List Char) (env : Env) (s : State)
    (hm : env.malloc 200 = true)
    (ha : env.inet_ntop 194 = some addr)
    (hh : env.gethostname (187 - addr.length) = some host)
    (hne : host.getD 0 '\x00' ≠ '\x00')
    (hfit : 13 + addr.length + host.length < 200)
    (hr : env.realloc (13 + addr.length + host.length + 1 + 1 + (skipDotSegments name).length) = false) :
    rtems_tftp_path name env s =
      (Outcome.undefined,
       { s with trace := s.trace ++ [Event.malloc 200, Event.realloc (some { size := 200, content := "/TFTP/".toList ++ addr ++ "/epics/".toList ++ host ++ "/".toList }) (13 + addr.length + host.length + 1 + 1 + (skipDotSegments name).length)] }) := by
  have hh1 : env.gethostname (200 - (13 + addr.length)) = some host := by
    rw [show 200 - (13 + addr.length) = 187 - addr.length by omega]; exact hh
  have e2 : ∀ s : State, strcpy (some ⟨200, []⟩) 0 "/TFTP/".toList env s =
      (Outcome.returned (some ⟨200, "/TFTP/".toList⟩), s) :=
    strcpy_at 200 [] "/TFTP/".toList 0 rfl (by decide) env
  have e3 := strlen_at 200 "/TFTP/".toList 6 (by decide) env
  have e4 := inet_ntop_at 200 "/TFTP/".toList addr 6 (200 - 6) env ha (by omega)
    (by decide) (by omega)
  have e5 := strlen_at 200 ("/TFTP/".toList ++ addr) (6 + addr.length) (by simp; omega) env
  have e6 := strcpy_at 200 ("/TFTP/".toList ++ addr) "/epics/".toList (6 + addr.length)
    (by simp; omega) (by simp; omega) env
  have e7 := strlen_at 200 ("/TFTP/".toList ++ addr ++ "/epics/".toList) (13 + addr.length)
    (by simp; omega) env
  have e8 := gethostname_at 200 ("/TFTP/".toList ++ addr ++ "/epics/".toList) host
    (13 + addr.length) (200 - (13 + addr.length)) env hh1 (by omega) (by simp; omega) (by omega)
  have e9 := charAt_at 200 ("/TFTP/".toList ++ addr ++ "/epics/".toList) host
    (13 + addr.length) (by simp; omega) env
  have e10 := strlen_at 200 ("/TFTP/".toList ++ addr ++ "/epics/".toList ++ host)
    (13 + addr.length + host.length) (by simp; omega) env
  have e11 := setChar_at 200 ("/TFTP/".toList ++ addr ++ "/epics/".toList ++ host)
    (13 + addr.length + host.length) '/' (by simp; omega) (by omega) env
  have e12 := realloc_run 200 (13 + addr.length + host.length + 1 + 1 + (skipDotSegments name).length)
    ("/TFTP/".toList ++ addr ++ "/epics/".toList ++ host ++ ['/']) env (by simp; omega)
  simp only [rtems_tftp_path, bind, M.bind, malloc_run, hm, e2, e3, e4, e5, e6, e7, e8, e9, e10,
    e11, e12, hr, hne, strcpy_null, reduceCtorEq, if_false, if_true, pure, decide_False,
    Bool.false_eq_true]
  simp

theorem skipDotSegments_fixed (rest : List Char)
    (h1 : ¬ "./".toList <+: rest) (h2 : ¬ "../".toList <+: rest) :
    skipDotSegments rest = rest := by
  unfold skipDotSegments
  split
  · simp at h1
  · simp at h2
  · rfl

theorem skipDotSegments_join (segs : List (List Char)) (rest : List Char)
    (hsegs : ∀ seg ∈ segs, seg = "./".toList ∨ seg = "../".toList)
    (h1 : ¬ "./".toList <+: rest) (h2 : ¬ "../".toList <+: rest) :
    skipDotSegments (segs.flatten ++ rest) = rest := by
  induction segs with
  | nil => simpa using skipDotSegments_fixed rest h1 h2
  | cons seg segs ih =>
    have ih1 := ih (fun x hx => hsegs x (List.mem_cons_of_mem _ hx))
    rcases hsegs seg (List.mem_cons_self _ _) with h | h
    · subst h
      have : ("./".toList :: segs).flatten ++ rest = '.' :: '/' :: (segs.flatten ++ rest) := by simp
      rw [this, skipDotSegments, ih1]
    · subst h
      have : ("../".toList :: segs).flatten ++ rest = '.' :: '.' :: '/' :: (segs.flatten ++ rest) := by
        simp
      rw [this, skipDotSegments, ih1]

/-- What `rtems_tftp_path` returns, whenever it returns: the mount root, the
server address, the scope segment, the host name and the name without its
leading dot segments. -/
theorem tftp_returned (name addr host : List Char) (env : Env) (s s1 : State)
    (path : Option Buffer)
    (ha : env.inet_ntop 194 = some addr)
    (hh : env.gethostname (187 - addr.length) = some host)
    (hret : rtems_tftp_path name env s = (Outcome.returned path, s1)) :
    path = some { size := 13 + addr.length + host.length + 1 + 1 + (skipDotSegments name).length,
                  content := "/TFTP/".toList ++ addr ++ "/epics/".toList ++ host ++ "/".toList
                    ++ skipDotSegments name } := by
  by_cases hm : env.malloc 200 = true
  swap
  · rw [tftp_malloc_fail name env s (by simpa using hm)] at hret
    simp at hret
  by_cases hlong : addr.length ≤ 186
  swap
  · have := tftp_addr_long name addr env s hm ha hlong
    rw [hret] at this
    simp at this
  by_cases hfit : 13 + addr.length + host.length < 200
  swap
  · have := tftp_host_long name addr host env s hm ha hlong hh hfit
    rw [hret] at this
    simp at this
  by_cases hne : host.getD 0 '\x00' = '\x00'
  · rw [tftp_host_empty name addr host env s hm ha hh hfit hne] at hret
    simp at hret
  by_cases hr : env.realloc (13 + addr.length + host.length + 1 + 1 + (skipDotSegments name).length) = true
  swap
  · rw [tftp_realloc_fail name addr host env s hm ha hh hne hfit (by simpa using hr)] at hret
    simp at hret
  rw [tftp_ok name addr host env s hm ha hh hne hfit hr] at hret
  simp only [Prod.mk.injEq, Outcome.returned.injEq] at hret
  exact hret.1.symm

/-! ## Claims about `rtems_tftp_path` -/

/-- C1 (path stripping).  Let `name` be a run of `./` and `../` segments
followed by a rest that begins with neither, and let address formatting and
host-name lookup succeed.  Then every path `rtems_tftp_path` returns ends with
`/`, the host name, `/` and the rest unchanged; and it does return such a path
when the two allocations succeed and the part before the name fits the 200
bytes first allocated. -/
theorem rtems_tftp_path_strips_dot_segments (segs : List (List Char))
    (rest addr host : List Char) (env : Env) (s : State)
    (hsegs : ∀ seg ∈ segs, seg = "./".toList ∨ seg = "../".toList)
    (hrest : ¬ "./".toList <+: rest ∧ ¬ "../".toList <+: rest)
    (ha : env.inet_ntop 194 = some addr)
    (hh : env.gethostname (187 - addr.length) = some host)
    (hne : host.getD 0 '\x00' ≠ '\x00') :
    (∀ path s1, rtems_tftp_path (segs.flatten ++ rest) env s = (Outcome.returned path, s1) →
      ∃ b, path = some b ∧ ("/".toList ++ host ++ "/".toList ++ rest) <:+ b.content) ∧
    (env.malloc 200 = true → 13 + addr.length + host.length < 200 →
      env.realloc (13 + addr.length + host.length + 1 + 1 + rest.length) = true →
      ∃ b s1, rtems_tftp_path (segs.flatten ++ rest) env s = (Outcome.returned (some b), s1) ∧
        b.content = "/TFTP/".toList ++ addr ++ "/epics/".toList ++ host ++ "/".toList ++ rest) := by
  have hskip := skipDotSegments_join segs rest hsegs hrest.1 hrest.2
  constructor
  · intro path s1 hret
    have hp := tftp_returned _ addr host env s s1 path ha hh hret
    rw [hskip] at hp
    refine ⟨_, hp, ?_⟩
    refine ⟨"/TFTP/".toList ++ addr ++ "/epic".toList ++ ['s'], ?_⟩
    simp
  · intro hm hfit hr
    have hok := tftp_ok (segs.flatten ++ rest) addr host env s hm ha hh hne hfit
      (by rw [hskip]; exact hr)
    rw [hskip] at hok
    exact ⟨_, _, hok, rfl⟩

/-- C1 at the name `../../st.cmd` on the sample node: the path returned is
`/TFTP/192.168.1.1/epics/ioc1/st.cmd`. -/
theorem rtems_tftp_path_strips_dot_segments_witness :
    sampleEnv.inet_ntop 194 = some "192.168.1.1".toList ∧
    sampleEnv.gethostname (187 - "192.168.1.1".toList.length) = some "ioc1".toList ∧
    ∃ b s1, rtems_tftp_path "../../st.cmd".toList sampleEnv sampleState
        = (Outcome.returned (some b), s1) ∧
      b.content = "/TFTP/192.168.1.1/epics/ioc1/st.cmd".toList :=
  ⟨rfl, rfl,
    (rtems_tftp_path_strips_dot_segments ["../".toList, "../".toList] "st.cmd".toList
      "192.168.1.1".toList "ioc1".toList sampleEnv sampleState
      (by simp) (by decide) rfl rfl (by decide)).2 rfl (by decide) rfl⟩

/-- C2 (path shape).  When address formatting and host-name lookup succeed and
the part before the name fits the 200 bytes first allocated, every path
`rtems_tftp_path` returns, for any name (empty or not), is `/TFTP/`, the text
of the server address, `/epics/`, the host name, `/` and the name without its
leading dot segments, so it begins with `/TFTP/` and the server address; and it
does return that path when the two allocations succeed. -/
theorem rtems_tftp_path_shape (name addr host : List Char) (env : Env) (s : State)
    (ha : env.inet_ntop 194 = some addr)
    (hh : env.gethostname (187 - addr.length) = some host)
    (hne : host.getD 0 '\x00' ≠ '\x00')
    (hfit : 13 + addr.length + host.length < 200) :
    (∀ path s1, rtems_tftp_path name env s = (Outcome.returned path, s1) →
      ∃ b, path = some b ∧
        b.content = "/TFTP/".toList ++ addr ++ "/epics/".toList ++ host ++ "/".toList
          ++ skipDotSegments name ∧
        ("/TFTP/".toList ++ addr) <+: b.content) ∧
    (env.malloc 200 = true →
      env.realloc (13 + addr.length + host.length + 1 + 1 + (skipDotSegments name).length) = true →
      ∃ b s1, rtems_tftp_path name env s = (Outcome.returned (some b), s1) ∧
        b.content = "/TFTP/".toList ++ addr ++ "/epics/".toList ++ host ++ "/".toList
          ++ skipDotSegments name) := by
  constructor
  · intro path s1 hret
    have hp := tftp_returned name addr host env s s1 path ha hh hret
    refine ⟨_, hp, rfl, ?_⟩
    simp only [List.append_assoc]
    exact List.prefix_append _ _
  · intro hm hr
    exact ⟨_, _, tftp_ok name addr host env s hm ha hh hne hfit hr, rfl⟩

/-- C2 at the name `db/test.db` on the sample node. -/
theorem rtems_tftp_path_shape_witness :
    sampleEnv.inet_ntop 194 = some "192.168.1.1".toList ∧
    sampleEnv.gethostname (187 - "192.168.1.1".toList.length) = some "ioc1".toList ∧
    ∃ b s1, rtems_tftp_path "db/test.db".toList sampleEnv sampleState
        = (Outcome.returned (some b), s1) ∧
      b.content = "/TFTP/192.168.1.1/epics/ioc1/db/test.db".toList :=
  ⟨rfl, rfl,
    (rtems_tftp_path_shape "db/test.db".toList "192.168.1.1".toList "ioc1".toList
      sampleEnv sampleState rfl rfl (by decide) (by decide)).2 rfl rfl⟩

/-- C3 at its failing input: on a node where the `realloc` of `rtems_tftp_path`
returns NULL, the name `st.cmd` makes the function store through the NULL
pointer; nothing is logged and `rtems_panic` is not called. -/
theorem rtems_tftp_path_realloc_null_not_fatal :
    (rtems_tftp_path "st.cmd".toList envReallocFails sampleState).1 = Outcome.undefined ∧
    (rtems_tftp_path "st.cmd".toList envReallocFails sampleState).2.trace =
      [Event.malloc 200,
       Event.realloc (some ⟨200, "/TFTP/192.168.1.1/epics/ioc1/".toList⟩) 36] := by
  decide

/-! ## Claims about the fatal error reporting -/

/-- C9 (termination protocol).  Each of `LogFatal`, `LogRtemsFatal` and
`LogNetFatal`, for every message, makes exactly four calls in this order: one
line to the log at `LOG_ALERT`, the read of the tick rate, a sleep of exactly
that many ticks, and `rtems_panic` with the caller's message; the halt is
reached and control does not come back to the caller. -/
theorem failure_escalator_protocol (msg : List Char) (ap : List FmtArg) (sc : Nat) (err : Int)
    (env : Env) (s : State) :
    LogFatal msg ap env s =
      (Outcome.fatal msg, { s with trace := s.trace ++
        [Event.vsyslog SyslogConst.LOG_ALERT msg ap,
         Event.rtems_clock_get_ticks_per_second,
         Event.rtems_task_wake_after env.ticksPerSecond,
         Event.rtems_panic msg] }) ∧
    LogRtemsFatal msg sc env s =
      (Outcome.fatal msg, { s with trace := s.trace ++
        [Event.syslog SyslogConst.LOG_ALERT "%s: %s".toList
           [FmtArg.str msg, FmtArg.str (env.rtems_status_text sc)],
         Event.rtems_clock_get_ticks_per_second,
         Event.rtems_task_wake_after env.ticksPerSecond,
         Event.rtems_panic msg] }) ∧
    LogNetFatal msg err env s =
      (Outcome.fatal msg, { s with trace := s.trace ++
        [Event.syslog SyslogConst.LOG_ALERT "%s: %d".toList [FmtArg.str msg, FmtArg.int err],
         Event.rtems_clock_get_ticks_per_second,
         Event.rtems_task_wake_after env.ticksPerSecond,
         Event.rtems_panic msg] }) := by
  refine ⟨LogFatal_run msg ap env s, ?_, ?_⟩
  · simp [LogRtemsFatal, delayedPanic, syslog, rtems_clock_get_ticks_per_second,
      rtems_task_wake_after, rtems_panic, emit, ask, bind, M.bind]
  · simp [LogNetFatal, delayedPanic, syslog, rtems_clock_get_ticks_per_second,
      rtems_task_wake_after, rtems_panic, emit, ask, bind, M.bind]

/-! ## Claims about `rtems_reboot` -/

theorem drainLine_stop (stdin : List Char) (c : Option Char)
    (hc : c = some '\n' ∨ c = none) : drainLine stdin c = ([], stdin) := by
  cases stdin <;> rcases hc with h | h <;> simp [drainLine, h]

theorem drainLine_spec (stdin : List Char) :
    ∀ c : Option Char, c ≠ some '\n' → c ≠ none →
    ∃ consumed, stdin = consumed ++ (drainLine stdin c).2 ∧
      (drainLine stdin c).1 = consumed.map (fun d => Event.getchar (some d))
        ++ (if '\n' ∈ stdin then [] else [Event.getchar none]) ∧
      (if '\n' ∈ stdin then ∃ pre, '\n' ∉ pre ∧ consumed = pre ++ ['\n']
        else (drainLine stdin c).2 = []) := by
  induction stdin with
  | nil =>
    intro c h1 h2
    exact ⟨[], by simp [drainLine, h1, h2]⟩
  | cons d rest ih =>
    intro c h1 h2
    by_cases hd : d = '\n'
    · subst hd
      refine ⟨['\n'], ?_⟩
      simp [drainLine, h1, h2, drainLine_stop rest (some '\n') (Or.inl rfl)]
    · obtain ⟨consumed, e1, e2, e3⟩ := ih (some d) (by simpa using hd) (by simp)
      refine ⟨d :: consumed, ?_⟩
      have hd1 : ¬ '\n' = d := fun h => hd h.symm
      by_cases hmem : '\n' ∈ rest
      · simp only [hmem, if_true] at e2 e3
        obtain ⟨pre, hp1, hp2⟩ := e3
        refine ⟨?_, ?_, ?_⟩
        · simp only [drainLine, h1, h2, ne_eq, not_false_eq_true, and_self, if_true]
          simpa using e1
        · simp [drainLine, h1, h2, hmem, e2]
        · simp only [List.mem_cons, hmem, or_true, if_true]
          exact ⟨d :: pre, by simp [hd1, hp1], by simp [hp2]⟩
      · simp only [hmem, if_false] at e2 e3
        refine ⟨?_, ?_, ?_⟩
        · simp only [drainLine, h1, h2, ne_eq, not_false_eq_true, and_self, if_true]
          simpa using e1
        · simp [drainLine, h1, h2, hmem, hd1, e2]
        · simp [drainLine, h1, h2, hmem, hd1, e3]

/-- C5 (reboot confirmation).  `rtems_reboot` ends in `rtems_panic` exactly
when the first character read is `Y`, and then with the message `Reboot` after
reading that one character.  For any other first character, end of input
included, it returns after reading nothing but the input up to and including
the first newline (all of it, and then the end of input, when there is no
newline); what follows the newline is left unread. -/
theorem rtems_reboot_protocol (name : List Char) (env : Env) (s : State) :
    ((∃ msg, (rtems_reboot name env s).1 = Outcome.fatal msg) ↔ s.stdin.head? = some 'Y') ∧
    (s.stdin.head? = some 'Y' →
      rtems_reboot name env s =
        (Outcome.fatal "Reboot".toList,
          { s with
            trace := s.trace ++
              [Event.printf "Are you sure you want to reboot the IOC? ".toList,
               Event.fflush_stdout, Event.getchar (some 'Y'),
               Event.vsyslog SyslogConst.LOG_ALERT "Reboot".toList [],
               Event.rtems_clock_get_ticks_per_second,
               Event.rtems_task_wake_after env.ticksPerSecond,
               Event.rtems_panic "Reboot".toList],
            stdin := s.stdin.tail })) ∧
    (s.stdin.head? ≠ some 'Y' →
      (rtems_reboot name env s).1 = Outcome.returned () ∧
      ∃ consumed, s.stdin = consumed ++ (rtems_reboot name env s).2.stdin ∧
        (rtems_reboot name env s).2.trace = s.trace ++
          [Event.printf "Are you sure you want to reboot the IOC? ".toList, Event.fflush_stdout]
          ++ consumed.map (fun d => Event.getchar (some d))
          ++ (if '\n' ∈ s.stdin then [] else [Event.getchar none]) ∧
        (if '\n' ∈ s.stdin then ∃ pre, '\n' ∉ pre ∧ consumed = pre ++ ['\n']
          else (rtems_reboot name env s).2.stdin = [])) := by
  cases hs : s.stdin with
  | nil =>
    have hrun : rtems_reboot name env s = (Outcome.returned (),
        { s with trace := s.trace ++
            [Event.printf "Are you sure you want to reboot the IOC? ".toList,
             Event.fflush_stdout, Event.getchar none], stdin := [] }) := by
      simp [rtems_reboot, printf, emit, getchar, skipRestOfLine, drainLine, bind, M.bind, pure, hs]
    rw [hrun]
    refine ⟨by simp, by simp, fun _ => ⟨rfl, [], ?_⟩⟩
    simp
  | cons c rest =>
    by_cases hY : c = 'Y'
    · subst hY
      have hrun : rtems_reboot name env s = (Outcome.fatal "Reboot".toList,
          { s with
            trace := s.trace ++
              [Event.printf "Are you sure you want to reboot the IOC? ".toList,
               Event.fflush_stdout, Event.getchar (some 'Y'),
               Event.vsyslog SyslogConst.LOG_ALERT "Reboot".toList [],
               Event.rtems_clock_get_ticks_per_second,
               Event.rtems_task_wake_after env.ticksPerSecond,
               Event.rtems_panic "Reboot".toList],
            stdin := rest }) := by
        simp [rtems_reboot, printf, emit, getchar, LogFatal_run, bind, M.bind, pure, hs]
      rw [hrun]
      exact ⟨by simp, fun _ => by simp, fun h => absurd rfl h⟩
    · have hrun : rtems_reboot name env s = (Outcome.returned (),
          { s with
            trace := s.trace ++
              [Event.printf "Are you sure you want to reboot the IOC? ".toList,
               Event.fflush_stdout, Event.getchar (some c)] ++ (drainLine rest (some c)).1,
            stdin := (drainLine rest (some c)).2 }) := by
        simp [rtems_reboot, printf, emit, getchar, skipRestOfLine, bind, M.bind, pure, hs, hY]
      rw [hrun]
      refine ⟨by simp [hY], fun h => absurd (by simpa using h) hY, fun _ => ⟨rfl, ?_⟩⟩
      by_cases hn : c = '\n'
      · subst hn
        refine ⟨['\n'], ?_⟩
        simp [drainLine_stop rest (some '\n') (Or.inl rfl)]
      · obtain ⟨consumed, e1, e2, e3⟩ :=
          drainLine_spec rest (some c) (by simpa using hn) (by simp)
        have hn1 : ¬ '\n' = c := fun h => hn h.symm
        refine ⟨c :: consumed, ?_⟩
        by_cases hmem : '\n' ∈ rest
        · simp only [hmem, if_true] at e2 e3
          obtain ⟨pre, hp1, hp2⟩ := e3
          refine ⟨by simpa using e1, by simp [hmem, e2], ?_⟩
          simp only [List.mem_cons, hmem, or_true, if_true]
          exact ⟨c :: pre, by simp [hn1, hp1], by simp [hp2]⟩
        · simp only [hmem, if_false] at e2 e3
          exact ⟨by simpa using e1, by simp [hmem, hn1, e2], by simp [hmem, hn1, e3]⟩

/-! ## Claims about `rtems_showSem` -/

theorem digitChar_ne_newline (d : Nat) : Nat.digitChar d ≠ '\n' := by
  by_cases h : d < 16
  · interval_cases d <;> decide
  · unfold Nat.digitChar
    repeat rw [if_neg (by omega)]
    decide

theorem toDigitsCore_no_newline (b : Nat) :
    ∀ fuel n ds, '\n' ∉ ds → '\n' ∉ Nat.toDigitsCore b fuel n ds := by
  intro fuel
  induction fuel with
  | zero => intro n ds h; simpa [Nat.toDigitsCore] using h
  | succ fuel ih =>
    intro n ds h
    have hd : '\n' ∉ Nat.digitChar (n % b) :: ds := by
      simp only [List.mem_cons, not_or]
      exact ⟨fun e => digitChar_ne_newline _ e.symm, h⟩
    simp only [Nat.toDigitsCore]
    split
    · exact hd
    · exact ih _ _ hd

theorem toDigits_no_newline (b n : Nat) : '\n' ∉ Nat.toDigits b n :=
  toDigitsCore_no_newline b _ _ _ (by simp)

theorem leftpad_no_newline (w : Nat) (l : List Char) (h : '\n' ∉ l) :
    '\n' ∉ List.leftpad w ' ' l := by
  simp only [List.leftpad, List.mem_append, not_or]
  refine ⟨fun hm => ?_, h⟩
  have := List.eq_of_mem_replicate hm
  exact absurd this (by decide)

theorem fmt_x_no_newline (w v : Nat) : '\n' ∉ fmt_x w v :=
  leftpad_no_newline w _ (toDigits_no_newline 16 _)

theorem fmt_d_no_newline (w : Nat) (v : Int) : '\n' ∉ fmt_d w v := by
  unfold fmt_d
  apply leftpad_no_newline
  split
  · simp only [List.mem_cons, not_or]
    exact ⟨by decide, toDigits_no_newline 10 _⟩
  · exact toDigits_no_newline 10 _

theorem cbufOf_no_newline (cp : List Char) : '\n' ∉ cbufOf cp := by
  unfold cbufOf
  simp only [List.mem_map, not_exists, not_and]
  intro j _ h
  split at h
  · rename_i hp
    rw [h] at hp
    exact absurd hp (by decide)
  · exact absurd h (by decide)

theorem semEntry_no_newline (bit : Nat) (sem : Semaphore_Control) :
    '\n' ∉ semEntry bit sem := by
  unfold semEntry
  simp only [List.mem_append, not_or]
  exact ⟨⟨⟨cbufOf_no_newline _, fmt_x_no_newline _ _⟩, fmt_x_no_newline _ _⟩,
    fmt_d_no_newline _ _⟩

theorem stdoutText_append (a b : List Event) :
    stdoutText (a ++ b) = stdoutText a ++ stdoutText b := by
  induction a with
  | nil => rfl
  | cons e a ih => cases e <;> simp [stdoutText, ih]

theorem showSemLoop_run (info : Objects_Information) (env : Env) :
    ∀ (slots : List Nat) (n : Nat) (s : State),
    showSemLoop info slots n env s =
      (Outcome.returned (n + (slots.filterMap info.local_table).length),
        { s with
          trace := s.trace ++ ((slots.filterMap info.local_table).enumFrom n).flatMap
                    (entryCalls env.RTEMS_BINARY_SEMAPHORE) }) := by
  intro slots
  induction slots with
  | nil => intro n s; simp [showSemLoop, pure]
  | cons i slots ih =>
    intro n s
    cases hi : info.local_table i with
    | none => simp [showSemLoop, hi, ih]
    | some sem =>
      by_cases h3 : (n + 1) % 3 = 0
      · simp [showSemLoop, hi, ih, bind, M.bind, ask, printf, emit, h3, entryCalls,
          List.enumFrom, Nat.add_assoc, Nat.add_comm 1]
      · simp [showSemLoop, hi, ih, bind, M.bind, ask, printf, emit, h3, entryCalls,
          List.enumFrom, Nat.add_assoc, Nat.add_comm 1]

theorem liveEntries_length_le (info : Objects_Information) :
    (liveEntries info).length ≤ info.maximum := by
  unfold liveEntries
  calc ((List.range info.maximum).filterMap info.local_table).length
      ≤ (List.range info.maximum).length := List.length_filterMap_le _ _
    _ = info.maximum := List.length_range _

theorem liveEntries_length_eq_filter (info : Objects_Information) :
    (liveEntries info).length
      = ((List.range info.maximum).filter (fun i => (info.local_table i).isSome)).length := by
  unfold liveEntries
  induction List.range info.maximum with
  | nil => rfl
  | cons i l ih =>
    cases h : info.local_table i <;> simp [List.filterMap_cons, List.filter_cons, h, ih]

theorem fmt_d_ofNat (n : Nat) : fmt_d 0 (n : Int) = (Nat.repr n).toList := by
  have h : ¬ ((n : Int) < 0) := by omega
  simp [fmt_d, List.leftpad, h, Nat.repr, List.asString]

theorem rtems_showSem_run (env : Env) (s : State) :
    rtems_showSem env s =
      (Outcome.returned 0,
        { s with
          trace := s.trace
            ++ ((liveEntries s.semaphores).enumFrom 0).flatMap
                (entryCalls env.RTEMS_BINARY_SEMAPHORE)
            ++ (if (liveEntries s.semaphores).length % 3 ≠ 0 then [Event.printf "\n".toList]
                else [])
            ++ [Event.printf ((Nat.repr (liveEntries s.semaphores).length).toList ++ "/".toList
                ++ (Nat.repr s.semaphores.maximum).toList ++ "\n".toList)] }) := by
  by_cases h3 : (liveEntries s.semaphores).length % 3 = 0
  · have h3a : ((List.range s.semaphores.maximum).filterMap s.semaphores.local_table).length % 3
        = 0 := h3
    simp [rtems_showSem, semaphoreInformation, showSemLoop_run, bind, M.bind, pure, printf, emit,
      h3, h3a, fmt_d_ofNat, liveEntries]
  · have h3a : ¬ ((List.range s.semaphores.maximum).filterMap s.semaphores.local_table).length % 3
        = 0 := h3
    simp [rtems_showSem, semaphoreInformation, showSemLoop_run, bind, M.bind, pure, printf, emit,
      h3, h3a, fmt_d_ofNat, liveEntries]

theorem entryCalls_text (bit : Nat) :
    ∀ (k : Nat) (live : List Semaphore_Control) (n0 : Nat), n0 % 3 = 0 →
    ∀ r, live.length = 3 * k + r → r < 3 →
    ∃ (full : List (Semaphore_Control × Semaphore_Control × Semaphore_Control))
      (last : List Semaphore_Control),
      full.length = k ∧ last.length = r ∧
      live = full.flatMap (fun t => [t.1, t.2.1, t.2.2]) ++ last ∧
      stdoutText ((live.enumFrom n0).flatMap (entryCalls bit)) =
        full.flatMap (fun t => semEntry bit t.1 ++ "   ".toList ++ semEntry bit t.2.1
            ++ "   ".toList ++ semEntry bit t.2.2 ++ "\n".toList)
          ++ last.flatMap (fun e => semEntry bit e ++ "   ".toList) := by
  intro k
  induction k with
  | zero =>
    intro live n0 h0 r hlen hr
    have h1 : ¬ (n0 + 1) % 3 = 0 := by omega
    have h2 : ¬ (n0 + 1 + 1) % 3 = 0 := by omega
    refine ⟨[], live, rfl, by omega, by simp, ?_⟩
    match live, hlen with
    | [], _ => simp [stdoutText]
    | [a], _ => simp [stdoutText, entryCalls, List.enumFrom, h1]
    | [a, b], _ => simp [stdoutText, entryCalls, List.enumFrom, h1, h2]
    | _ :: _ :: _ :: _, hl => simp at hl; omega
  | succ k ih =>
    intro live n0 h0 r hlen hr
    match live, hlen with
    | [], hl => simp at hl; omega
    | [_], hl => simp at hl; omega
    | [_, _], hl => simp at hl; omega
    | a :: b :: c :: rest, hl =>
      have h1 : ¬ (n0 + 1) % 3 = 0 := by omega
      have h2 : ¬ (n0 + 1 + 1) % 3 = 0 := by omega
      have h3 : (n0 + 1 + 1 + 1) % 3 = 0 := by omega
      obtain ⟨full, last, hf, hlast, hlive, htext⟩ :=
        ih rest (n0 + 1 + 1 + 1) h3 r (by simp at hl; omega) hr
      refine ⟨(a, b, c) :: full, last, by simp [hf], hlast, by simp [hlive], ?_⟩
      have e : stdoutText (((a :: b :: c :: rest).enumFrom n0).flatMap (entryCalls bit)) =
          semEntry bit a ++ "   ".toList ++ semEntry bit b ++ "   ".toList ++ semEntry bit c
            ++ "\n".toList
            ++ stdoutText ((rest.enumFrom (n0 + 1 + 1 + 1)).flatMap (entryCalls bit)) := by
        simp only [List.enumFrom, List.flatMap_cons, stdoutText_append, entryCalls, stdoutText,
          h1, h2, h3, if_true, if_false, List.append_assoc, List.cons_append, List.nil_append,
          List.append_nil]
        rfl
      rw [e, htext]
      simp

theorem flatMap_getLast_newline {α : Type} (f : α → List Char) (l : List α)
    (hl : l ≠ []) (hf : ∀ a, (f a).getLast? = some '\n') :
    (l.flatMap f).getLast? = some '\n' := by
  rcases List.eq_nil_or_concat l with h | ⟨init, a, h⟩
  · exact absurd h hl
  · subst h
    have hne : f a ≠ [] := by
      intro h0
      have := hf a
      rw [h0] at this
      simp at this
    rw [List.concat_eq_append, List.flatMap_append]
    simp [List.getLast?_append_of_ne_nil _ hne, hf a]

theorem showSem_text (env : Env) (s : State) (k r : Nat)
    (hn : (liveEntries s.semaphores).length = 3 * k + r) (hr : r < 3) :
    ∃ (full : List (Semaphore_Control × Semaphore_Control × Semaphore_Control))
      (last : List Semaphore_Control),
      full.length = k ∧ last.length = r ∧
      liveEntries s.semaphores = full.flatMap (fun t => [t.1, t.2.1, t.2.2]) ++ last ∧
      stdoutText ((rtems_showSem env s).2.trace.drop s.trace.length) =
        full.flatMap (fun t =>
            semEntry env.RTEMS_BINARY_SEMAPHORE t.1 ++ "   ".toList
              ++ semEntry env.RTEMS_BINARY_SEMAPHORE t.2.1 ++ "   ".toList
              ++ semEntry env.RTEMS_BINARY_SEMAPHORE t.2.2 ++ "\n".toList)
          ++ (if r = 0 then []
              else last.flatMap (fun e => semEntry env.RTEMS_BINARY_SEMAPHORE e ++ "   ".toList)
                ++ "\n".toList)
          ++ ((Nat.repr (3 * k + r)).toList ++ "/".toList
              ++ (Nat.repr s.semaphores.maximum).toList ++ "\n".toList) := by
  obtain ⟨full, last, hf, hlast, hlive, htext⟩ :=
    entryCalls_text env.RTEMS_BINARY_SEMAPHORE k (liveEntries s.semaphores) 0 rfl r hn hr
  have hmod : (liveEntries s.semaphores).length % 3 = r := by omega
  have hmod2 : (3 * k + r) % 3 = r := by omega
  refine ⟨full, last, hf, hlast, hlive, ?_⟩
  rw [rtems_showSem_run]
  simp only [List.append_assoc, List.drop_left, stdoutText_append, htext, hmod, hn, hmod2]
  by_cases h0 : r = 0
  · subst h0
    have : last = [] := List.length_eq_zero.mp hlast
    simp [this, stdoutText]
  · simp [h0, stdoutText]

/-- C6 (line grouping).  Let the table have `3 * k + r` non-null slots with
`r < 3`.  Then what `rtems_showSem` prints is: `k` lines, each made of the next
three entries with three blanks between them; then, only when `r > 0`, one line
with the last `r` entries, each followed by three blanks; then the summary
line.  No entry contains a newline.  In particular a table without non-null
slots prints the summary line alone. -/
theorem rtems_showSem_line_grouping (env : Env) (s : State) (k r : Nat)
    (hn : (liveEntries s.semaphores).length = 3 * k + r) (hr : r < 3) :
    ∃ (full : List (Semaphore_Control × Semaphore_Control × Semaphore_Control))
      (last : List Semaphore_Control),
      full.length = k ∧ last.length = r ∧
      liveEntries s.semaphores = full.flatMap (fun t => [t.1, t.2.1, t.2.2]) ++ last ∧
      stdoutText ((rtems_showSem env s).2.trace.drop s.trace.length) =
        full.flatMap (fun t =>
            semEntry env.RTEMS_BINARY_SEMAPHORE t.1 ++ "   ".toList
              ++ semEntry env.RTEMS_BINARY_SEMAPHORE t.2.1 ++ "   ".toList
              ++ semEntry env.RTEMS_BINARY_SEMAPHORE t.2.2 ++ "\n".toList)
          ++ (if r = 0 then []
              else last.flatMap (fun e => semEntry env.RTEMS_BINARY_SEMAPHORE e ++ "   ".toList)
                ++ "\n".toList)
          ++ ((Nat.repr (3 * k + r)).toList ++ "/".toList
              ++ (Nat.repr s.semaphores.maximum).toList ++ "\n".toList) ∧
      (∀ e ∈ liveEntries s.semaphores, '\n' ∉ semEntry env.RTEMS_BINARY_SEMAPHORE e) ∧
      (k = 0 → r = 0 →
        stdoutText ((rtems_showSem env s).2.trace.drop s.trace.length) =
          "0/".toList ++ (Nat.repr s.semaphores.maximum).toList ++ "\n".toList) := by
  obtain ⟨full, last, hf, hlast, hlive, hout⟩ := showSem_text env s k r hn hr
  refine ⟨full, last, hf, hlast, hlive, hout, fun e _ => semEntry_no_newline _ e, ?_⟩
  intro hk h0
  subst hk; subst h0
  have h1 : full = [] := List.length_eq_zero.mp hf
  have h00 : (Nat.repr 0).data = ['0'] := by decide
  rw [hout, h1]
  simp [h00]

/-- C6 on a table with four semaphores in six slots: one full line of three
entries, one line with the fourth entry, then `4/6`. -/
theorem rtems_showSem_line_grouping_witness :
    (liveEntries semState.semaphores).length = 3 * 1 + 1 ∧
    stdoutText (rtems_showSem sampleEnv semState).2.trace =
      ("SEM1      101   10    1   a b       102    4    7   LOCK      103   54    0\n"
        ++ "cntr      104    0   12   \n" ++ "4/6\n").toList ∧
    ∃ (full : List (Semaphore_Control × Semaphore_Control × Semaphore_Control))
      (last : List Semaphore_Control),
      full.length = 1 ∧ last.length = 1 ∧
      liveEntries semState.semaphores = full.flatMap (fun t => [t.1, t.2.1, t.2.2]) ++ last ∧
      stdoutText ((rtems_showSem sampleEnv semState).2.trace.drop semState.trace.length) =
        full.flatMap (fun t =>
            semEntry sampleEnv.RTEMS_BINARY_SEMAPHORE t.1 ++ "   ".toList
              ++ semEntry sampleEnv.RTEMS_BINARY_SEMAPHORE t.2.1 ++ "   ".toList
              ++ semEntry sampleEnv.RTEMS_BINARY_SEMAPHORE t.2.2 ++ "\n".toList)
          ++ (if 1 = 0 then []
              else last.flatMap
                  (fun e => semEntry sampleEnv.RTEMS_BINARY_SEMAPHORE e ++ "   ".toList)
                ++ "\n".toList)
          ++ ((Nat.repr (3 * 1 + 1)).toList ++ "/".toList
              ++ (Nat.repr semState.semaphores.maximum).toList ++ "\n".toList) ∧
      (∀ e ∈ liveEntries semState.semaphores,
        '\n' ∉ semEntry sampleEnv.RTEMS_BINARY_SEMAPHORE e) ∧
      ((1 : Nat) = 0 → (1 : Nat) = 0 →
        stdoutText ((rtems_showSem sampleEnv semState).2.trace.drop semState.trace.length) =
          "0/".toList ++ (Nat.repr semState.semaphores.maximum).toList ++ "\n".toList) :=
  ⟨by decide, by decide, rtems_showSem_line_grouping sampleEnv semState 1 1 (by decide) (by decide)⟩

/-- C7 (summary count).  `rtems_showSem` returns 0 and leaves the table (and
the console input) as they were.  Its calls are the two `printf` calls of each
non-null slot in slot order, a newline when their number `n` is not a multiple
of three, and last the line `<n>/<M>`, `M` being the slot count; `n` is the
number of non-null slots among the `M` scanned and `n ≤ M`.  What is printed
before that last line is empty or ends with a newline. -/
theorem rtems_showSem_summary (env : Env) (s : State) :
    rtems_showSem env s =
      (Outcome.returned 0,
        { s with
          trace := s.trace
            ++ ((liveEntries s.semaphores).enumFrom 0).flatMap
                (entryCalls env.RTEMS_BINARY_SEMAPHORE)
            ++ (if (liveEntries s.semaphores).length % 3 ≠ 0 then [Event.printf "\n".toList]
                else [])
            ++ [Event.printf ((Nat.repr (liveEntries s.semaphores).length).toList ++ "/".toList
                ++ (Nat.repr s.semaphores.maximum).toList ++ "\n".toList)] }) ∧
    (liveEntries s.semaphores).length
      = ((List.range s.semaphores.maximum).filter
          (fun i => (s.semaphores.local_table i).isSome)).length ∧
    (liveEntries s.semaphores).length ≤ s.semaphores.maximum ∧
    (∃ body, stdoutText ((rtems_showSem env s).2.trace.drop s.trace.length) =
        body ++ ((Nat.repr (liveEntries s.semaphores).length).toList ++ "/".toList
          ++ (Nat.repr s.semaphores.maximum).toList ++ "\n".toList) ∧
      (body = [] ∨ body.getLast? = some '\n')) ∧
    '\n' ∉ (Nat.repr (liveEntries s.semaphores).length).toList ++ "/".toList
      ++ (Nat.repr s.semaphores.maximum).toList := by
  refine ⟨rtems_showSem_run env s, liveEntries_length_eq_filter _, liveEntries_length_le _, ?_, ?_⟩
  · obtain ⟨full, last, hf, hlast, _, hout⟩ :=
      showSem_text env s ((liveEntries s.semaphores).length / 3)
        ((liveEntries s.semaphores).length % 3) (by omega) (by omega)
    have hsum : 3 * ((liveEntries s.semaphores).length / 3)
        + (liveEntries s.semaphores).length % 3 = (liveEntries s.semaphores).length := by omega
    rw [hsum] at hout
    refine ⟨_, hout, ?_⟩
    by_cases h0 : (liveEntries s.semaphores).length % 3 = 0
    · simp only [h0, if_true, List.append_nil]
      by_cases hfull : full = []
      · left; simp [hfull]
      · right
        exact flatMap_getLast_newline _ full hfull
          (fun t => by rw [List.getLast?_append_of_ne_nil _ (by decide)]; rfl)
    · right
      simp [h0]
  · simp only [List.mem_append, not_or, Nat.repr, List.asString, String.toList]
    exact ⟨⟨toDigits_no_newline 10 _, by decide⟩, toDigits_no_newline 10 _⟩

/-! ## Claims about `runScriptRTEMS` -/

theorem skipDotSegments_slash (rest : List Char) :
    skipDotSegments ('/' :: rest) = '/' :: rest := by
  unfold skipDotSegments
  split
  · rename_i heq; simp at heq
  · rename_i heq; simp at heq
  · rfl

theorem tftp_path_ne_name (name addr host : List Char) :
    "/TFTP/".toList ++ addr ++ "/epics/".toList ++ host ++ "/".toList ++ skipDotSegments name
      ≠ name := by
  intro h
  obtain ⟨rest, h1⟩ : ∃ rest, name = '/' :: rest := ⟨_, h.symm.trans rfl⟩
  have h2 : skipDotSegments name = name := by
    rw [h1, skipDotSegments_slash]
  rw [h2] at h
  have h3 := congrArg List.length h
  simp at h3
  omega

theorem runScript_closed (name addr host : List Char) (env : Env) (s : State)
    (hm : env.malloc 200 = true)
    (ha : env.inet_ntop 194 = some addr)
    (hh : env.gethostname (187 - addr.length) = some host)
    (hne : host.getD 0 '\x00' ≠ '\x00')
    (hfit : 13 + addr.length + host.length < 200)
    (hr : env.realloc (13 + addr.length + host.length + 1 + 1 + (skipDotSegments name).length)
      = true)
    (hopen : env.fopen ("/TFTP/".toList ++ addr ++ "/epics/".toList ++ host ++ "/".toList
      ++ skipDotSegments name) = false) :
    runScriptRTEMS name env s =
      (Outcome.returned (),
        { s with trace := s.trace ++
          [Event.malloc 200,
           Event.realloc
             (some ⟨200, "/TFTP/".toList ++ addr ++ "/epics/".toList ++ host ++ "/".toList⟩)
             (13 + addr.length + host.length + 1 + 1 + (skipDotSegments name).length),
           Event.fopen ("/TFTP/".toList ++ addr ++ "/epics/".toList ++ host ++ "/".toList
             ++ skipDotSegments name) "r".toList,
           Event.printf ("Can't open script (".toList ++ name ++ ")\n".toList),
           Event.free (some ⟨13 + addr.length + host.length + 1 + 1
             + (skipDotSegments name).length,
             "/TFTP/".toList ++ addr ++ "/epics/".toList ++ host ++ "/".toList
               ++ skipDotSegments name⟩)] }) := by
  have hok := tftp_ok name addr host env s hm ha hh hne hfit hr
  generalize "/TFTP/".toList ++ addr ++ "/epics/".toList ++ host ++ "/".toList
    ++ skipDotSegments name = path at hok hopen ⊢
  simp [runScriptRTEMS, bind, M.bind, hok, fopen, emit, ask, pure, hopen, printf, free]

theorem runScript_opened (name addr host : List Char) (env : Env) (s : State)
    (hm : env.malloc 200 = true)
    (ha : env.inet_ntop 194 = some addr)
    (hh : env.gethostname (187 - addr.length) = some host)
    (hne : host.getD 0 '\x00' ≠ '\x00')
    (hfit : 13 + addr.length + host.length < 200)
    (hr : env.realloc (13 + addr.length + host.length + 1 + 1 + (skipDotSegments name).length)
      = true)
    (hopen : env.fopen ("/TFTP/".toList ++ addr ++ "/epics/".toList ++ host ++ "/".toList
      ++ skipDotSegments name) = true)
    (hback : (env.ioccrf (some ⟨"/TFTP/".toList ++ addr ++ "/epics/".toList ++ host
      ++ "/".toList ++ skipDotSegments name⟩) (some name)).isSome = true) :
    runScriptRTEMS name env s =
      (Outcome.returned (),
        { s with trace := s.trace ++
          [Event.malloc 200,
           Event.realloc
             (some ⟨200, "/TFTP/".toList ++ addr ++ "/epics/".toList ++ host ++ "/".toList⟩)
             (13 + addr.length + host.length + 1 + 1 + (skipDotSegments name).length),
           Event.fopen ("/TFTP/".toList ++ addr ++ "/epics/".toList ++ host ++ "/".toList
             ++ skipDotSegments name) "r".toList,
           Event.ioccrf (some ⟨"/TFTP/".toList ++ addr ++ "/epics/".toList ++ host
             ++ "/".toList ++ skipDotSegments name⟩) (some name),
           Event.fclose ⟨"/TFTP/".toList ++ addr ++ "/epics/".toList ++ host ++ "/".toList
             ++ skipDotSegments name⟩,
           Event.free (some ⟨13 + addr.length + host.length + 1 + 1
             + (skipDotSegments name).length,
             "/TFTP/".toList ++ addr ++ "/epics/".toList ++ host ++ "/".toList
               ++ skipDotSegments name⟩)] }) := by
  have hok := tftp_ok name addr host env s hm ha hh hne hfit hr
  generalize "/TFTP/".toList ++ addr ++ "/epics/".toList ++ host ++ "/".toList
    ++ skipDotSegments name = path at hok hopen hback ⊢
  simp [runScriptRTEMS, bind, M.bind, hok, fopen, emit, ask, pure, hopen, ioccrf, call,
    fclose, free, hback]

/-- C8 (script open failure is not fatal).  Let the translation of `name`
succeed with result `path`.  When `path` cannot be opened, `runScriptRTEMS`
prints `Can't open script (<name>)` with the name it was given, which is not
the line naming `path`, frees the path buffer and returns; `ioccrf` and
`rtems_panic` are not called.  When `path` can be opened and the interpreter
comes back, the interpreter is called once, with the open stream and `name`,
then the stream is closed and the path buffer freed. -/
theorem runScriptRTEMS_protocol (name addr host path : List Char) (env : Env) (s : State)
    (hm : env.malloc 200 = true)
    (ha : env.inet_ntop 194 = some addr)
    (hh : env.gethostname (187 - addr.length) = some host)
    (hne : host.getD 0 '\x00' ≠ '\x00')
    (hfit : 13 + addr.length + host.length < 200)
    (hr : env.realloc (13 + addr.length + host.length + 1 + 1 + (skipDotSegments name).length)
      = true)
    (hpath : path = "/TFTP/".toList ++ addr ++ "/epics/".toList ++ host ++ "/".toList
      ++ skipDotSegments name) :
    (env.fopen path = false →
      runScriptRTEMS name env s =
        (Outcome.returned (),
          { s with trace := s.trace ++
            [Event.malloc 200,
             Event.realloc
               (some ⟨200, "/TFTP/".toList ++ addr ++ "/epics/".toList ++ host ++ "/".toList⟩)
               (13 + addr.length + host.length + 1 + 1 + (skipDotSegments name).length),
             Event.fopen path "r".toList,
             Event.printf ("Can't open script (".toList ++ name ++ ")\n".toList),
             Event.free (some ⟨13 + addr.length + host.length + 1 + 1
               + (skipDotSegments name).length, path⟩)] })) ∧
    (env.fopen path = true → (env.ioccrf (some ⟨path⟩) (some name)).isSome = true →
      runScriptRTEMS name env s =
        (Outcome.returned (),
          { s with trace := s.trace ++
            [Event.malloc 200,
             Event.realloc
               (some ⟨200, "/TFTP/".toList ++ addr ++ "/epics/".toList ++ host ++ "/".toList⟩)
               (13 + addr.length + host.length + 1 + 1 + (skipDotSegments name).length),
             Event.fopen path "r".toList,
             Event.ioccrf (some ⟨path⟩) (some name),
             Event.fclose ⟨path⟩,
             Event.free (some ⟨13 + addr.length + host.length + 1 + 1
               + (skipDotSegments name).length, path⟩)] })) ∧
    "Can't open script (".toList ++ name ++ ")\n".toList
      ≠ "Can't open script (".toList ++ path ++ ")\n".toList := by
  subst hpath
  refine ⟨fun hopen => ?_, fun hopen hback => ?_, fun h => ?_⟩
  · exact runScript_closed name addr host env s hm ha hh hne hfit hr hopen
  · exact runScript_opened name addr host env s hm ha hh hne hfit hr hopen hback
  · rw [List.append_assoc, List.append_assoc] at h
    have h1 := List.append_cancel_right (List.append_cancel_left h)
    exact tftp_path_ne_name name addr host h1.symm

/-- C8 for the script `st.cmd` on the sample node: once with every open
refused, once with every open granted. -/
theorem runScriptRTEMS_protocol_witness :
    (runScriptRTEMS "st.cmd".toList envNoScript sampleState).1 = Outcome.returned () ∧
    (runScriptRTEMS "st.cmd".toList envNoScript sampleState).2.trace =
      [Event.malloc 200,
       Event.realloc (some ⟨200, "/TFTP/192.168.1.1/epics/ioc1/".toList⟩) 36,
       Event.fopen "/TFTP/192.168.1.1/epics/ioc1/st.cmd".toList "r".toList,
       Event.printf "Can't open script (st.cmd)\n".toList,
       Event.free (some ⟨36, "/TFTP/192.168.1.1/epics/ioc1/st.cmd".toList⟩)] ∧
    (runScriptRTEMS "st.cmd".toList sampleEnv sampleState).2.trace =
      [Event.malloc 200,
       Event.realloc (some ⟨200, "/TFTP/192.168.1.1/epics/ioc1/".toList⟩) 36,
       Event.fopen "/TFTP/192.168.1.1/epics/ioc1/st.cmd".toList "r".toList,
       Event.ioccrf (some ⟨"/TFTP/192.168.1.1/epics/ioc1/st.cmd".toList⟩)
         (some "st.cmd".toList),
       Event.fclose ⟨"/TFTP/192.168.1.1/epics/ioc1/st.cmd".toList⟩,
       Event.free (some ⟨36, "/TFTP/192.168.1.1/epics/ioc1/st.cmd".toList⟩)] := by
  have h1 := (runScriptRTEMS_protocol "st.cmd".toList "192.168.1.1".toList "ioc1".toList
    "/TFTP/192.168.1.1/epics/ioc1/st.cmd".toList envNoScript
    sampleState rfl rfl rfl (by decide) (by decide) rfl (by decide)).1 rfl
  have h2 := (runScriptRTEMS_protocol "st.cmd".toList "192.168.1.1".toList "ioc1".toList
    "/TFTP/192.168.1.1/epics/ioc1/st.cmd".toList sampleEnv
    sampleState rfl rfl rfl (by decide) (by decide) rfl (by decide)).2.1 rfl rfl
  rw [h1, h2]
  exact ⟨rfl, by decide, by decide⟩

/-! ## The trace only grows -/

theorem grows_pure {α : Type} (a : α) : TraceGrows (pure a : M α) :=
  ⟨fun _ _ => List.prefix_refl _⟩

theorem grows_undef {α : Type} : TraceGrows (undef : M α) :=
  ⟨fun _ _ => List.prefix_refl _⟩

theorem grows_ask {α : Type} (f : Env → α) : TraceGrows (ask f) :=
  ⟨fun _ _ => List.prefix_refl _⟩

theorem grows_emit (e : Event) : TraceGrows (emit e) :=
  ⟨fun _ _ => List.prefix_append _ _⟩

theorem grows_call (e : Event) (b : Env → Bool) : TraceGrows (call e b) := by
  constructor
  intro env s
  unfold call
  split <;> exact List.prefix_append _ _

theorem grows_callStatus (e : Event) (a : Env → Option Int) : TraceGrows (callStatus e a) := by
  constructor
  intro env s
  unfold callStatus
  split <;> exact List.prefix_append _ _

theorem grows_rtems_panic (msg : List Char) : TraceGrows (rtems_panic msg) :=
  ⟨fun _ _ => List.prefix_append _ _⟩

theorem grows_bind {α β : Type} {m : M α} {f : α → M β} (hm : TraceGrows m)
    (hf : ∀ a, TraceGrows (f a)) : TraceGrows (m >>= f) := by
  constructor
  intro env s
  have h1 := hm.grows env s
  show s.trace <+: (M.bind m f env s).2.trace
  unfold M.bind
  split
  · rename_i a s1 heq
    rw [heq] at h1
    exact h1.trans ((hf a).grows env s1)
  all_goals
    rename_i heq
    rw [heq] at h1
    exact h1

theorem grows_LogFatal (msg : List Char) (ap : List FmtArg) : TraceGrows (LogFatal msg ap) := by
  constructor
  intro env s
  rw [LogFatal_run]
  exact List.prefix_append _ _

theorem grows_malloc (size : Nat) : TraceGrows (malloc size) := by
  unfold malloc
  exact grows_bind (grows_emit _) (fun _ => grows_bind (grows_ask _) (fun _ => grows_pure _))

theorem grows_realloc (block : Option Buffer) (size : Nat) : TraceGrows (realloc block size) := by
  unfold realloc
  refine grows_bind (grows_emit _) (fun _ => grows_bind (grows_ask _) (fun ok => ?_))
  split
  · split <;> exact grows_pure _
  · exact grows_pure _

theorem grows_free (block : Option Buffer) : TraceGrows (free block) := grows_emit _

theorem grows_strlen (path : Option Buffer) : TraceGrows (strlen path) := by
  unfold strlen
  split
  · exact grows_undef
  · exact grows_pure _

theorem grows_strcpy (path : Option Buffer) (l : Nat) (src : List Char) :
    TraceGrows (strcpy path l src) := by
  unfold strcpy
  split
  · exact grows_undef
  · split
    · exact grows_pure _
    · exact grows_undef

theorem grows_charAt (path : Option Buffer) (l : Nat) : TraceGrows (charAt path l) := by
  unfold charAt
  split
  · exact grows_undef
  · split
    · exact grows_pure _
    · exact grows_undef

theorem grows_setChar (path : Option Buffer) (l : Nat) (c : Char) :
    TraceGrows (setChar path l c) := by
  unfold setChar
  split
  · exact grows_undef
  · split
    · exact grows_pure _
    · exact grows_undef

theorem grows_inet_ntop (path : Option Buffer) (l size : Nat) :
    TraceGrows (inet_ntop path l size) := by
  unfold inet_ntop
  refine grows_bind (grows_ask _) (fun r => ?_)
  split
  · exact grows_pure _
  · split
    · exact grows_bind (grows_strcpy _ _ _) (fun _ => grows_pure _)
    · exact grows_undef

theorem grows_gethostname (path : Option Buffer) (l namelen : Nat) :
    TraceGrows (gethostname path l namelen) := by
  unfold gethostname
  refine grows_bind (grows_ask _) (fun r => ?_)
  split
  · exact grows_pure _
  · split
    · exact grows_bind (grows_strcpy _ _ _) (fun _ => grows_pure _)
    · exact grows_undef

theorem grows_rtems_tftp_path (name : List Char) : TraceGrows (rtems_tftp_path name) := by
  unfold rtems_tftp_path
  dsimp only
  repeat' first
    | with_reducible exact grows_pure _
    | with_reducible exact grows_malloc _
    | with_reducible exact grows_realloc _ _
    | with_reducible exact grows_strlen _
    | with_reducible exact grows_strcpy _ _ _
    | with_reducible exact grows_charAt _ _
    | with_reducible exact grows_setChar _ _ _
    | with_reducible exact grows_inet_ntop _ _ _
    | with_reducible exact grows_gethostname _ _ _
    | with_reducible exact grows_LogFatal _ _
    | with_reducible apply grows_bind
    | intro _
    | split

theorem grows_printf (text : List Char) : TraceGrows (printf text) := grows_emit _

theorem grows_syslog (priority : SyslogConst) (format : List Char) (args : List FmtArg) :
    TraceGrows (syslog priority format args) := grows_emit _

theorem grows_ioccrf (fp : Option FILE) (name : Option (List Char)) :
    TraceGrows (ioccrf fp name) := grows_call _ _

theorem grows_fopen (path : Option Buffer) (mode : List Char) : TraceGrows (fopen path mode) := by
  unfold fopen
  split
  · exact grows_undef
  · exact grows_bind (grows_emit _) (fun _ => grows_bind (grows_ask _) (fun _ => grows_pure _))

theorem grows_fclose (fp : Option FILE) : TraceGrows (fclose fp) := by
  unfold fclose
  split
  · exact grows_undef
  · exact grows_emit _

theorem grows_runScriptRTEMS (name : List Char) : TraceGrows (runScriptRTEMS name) := by
  unfold runScriptRTEMS
  repeat' first
    | with_reducible exact grows_pure _
    | with_reducible exact grows_rtems_tftp_path _
    | with_reducible exact grows_fopen _ _
    | with_reducible exact grows_fclose _
    | with_reducible exact grows_ioccrf _ _
    | with_reducible exact grows_printf _
    | with_reducible exact grows_free _
    | with_reducible apply grows_bind
    | intro _
    | split

/-! ## Claims about `Init` -/

theorem emit_run (e : Event) (env : Env) (s : State) :
    emit e env s = (Outcome.returned (), { s with trace := s.trace ++ [e] }) := rfl

theorem callStatus_returns (e : Event) (answer : Env → Option Int) (status : Int) (env : Env)
    (h : answer env = some status) (s : State) :
    callStatus e answer env s = (Outcome.returned status, { s with trace := s.trace ++ [e] }) := by
  simp [callStatus, h]

theorem callStatus_keeps (e : Event) (answer : Env → Option Int) (env : Env)
    (h : answer env = none) (s : State) :
    callStatus e answer env s = (Outcome.noreturn, { s with trace := s.trace ++ [e] }) := by
  simp [callStatus, h]

theorem call_returns (e : Event) (b : Env → Bool) (env : Env) (h : b env = true) (s : State) :
    call e b env s = (Outcome.returned (), { s with trace := s.trace ++ [e] }) := by
  simp [call, h]

theorem call_keeps (e : Event) (b : Env → Bool) (env : Env) (h : b env = false) (s : State) :
    call e b env s = (Outcome.noreturn, { s with trace := s.trace ++ [e] }) := by
  simp [call, h]

/-- C10 (phase order).  Let every step before the console interpreter come
back: network bring-up, the mount and time synchronisation with any status
(failure included), `clockInit`, `threadInit`, the two registrations, the
translation of `st.cmd`, the interpreter on the script when it can be opened,
and `threadSleep`.  Then `Init` makes exactly these calls, once each and in
this order: the four `putenv`, network bring-up, the mount, time
synchronisation, `openlog` and the `IOC started.` notice, `clockInit`, then
`threadInit`, the two registrations, the script `st.cmd` (opened and handed to
the interpreter, or reported as not openable), `threadSleep (2.0)`, and the
interpreter with no input file.  If that interpreter comes back `Init` ends in
`rtems_panic` through `LogFatal` with `Console command interpreter terminated`;
it never returns. -/
theorem Init_phase_order (ignored : Nat) (addr host path : List Char) (env : Env) (s : State)
    (r1 r2 r3 : Int)
    (hnet : env.rtems_bsdnet_initialize_network = some r1)
    (htftp : env.rtems_bsdnet_initialize_tftp_filesystem = some r2)
    (hntp : env.rtems_bsdnet_synchronize_ntp = some r3)
    (hclock : env.clockInit = true)
    (hthread : env.threadInit = true)
    (hreg : env.ioccrfrRegister = true)
    (hdrv : env.registerRecordDeviceDriverRegister = true)
    (hm : env.malloc 200 = true)
    (ha : env.inet_ntop 194 = some addr)
    (hh : env.gethostname (187 - addr.length) = some host)
    (hne : host.getD 0 '\x00' ≠ '\x00')
    (hfit : 13 + addr.length + host.length < 200)
    (hr : env.realloc (13 + addr.length + host.length + 1 + 1 + 6) = true)
    (hpath : path = "/TFTP/".toList ++ addr ++ "/epics/".toList ++ host ++ "/st.cmd".toList)
    (hscript : env.fopen path = true →
      (env.ioccrf (some ⟨path⟩) (some "st.cmd".toList)).isSome = true)
    (hsleep : env.threadSleep = true) :
    Init ignored env s =
      (if (env.ioccrf none none).isSome = true then
          Outcome.fatal "Console command interpreter terminated".toList
        else Outcome.noreturn,
       { s with trace := s.trace ++
          [Event.putenv "TERM=xterm".toList,
           Event.putenv "PS1=rtems> ".toList,
           Event.putenv "HISTSIZE=10".toList,
           Event.putenv "IFS= \t,()".toList,
           Event.printf "***** Initializing network *****\n".toList,
           Event.rtems_bsdnet_initialize_network,
           Event.printf "***** Initializing TFTP *****\n".toList,
           Event.rtems_bsdnet_initialize_tftp_filesystem,
           Event.printf "***** Initializing NTP *****\n".toList,
           Event.rtems_bsdnet_synchronize_ntp 0 0,
           Event.printf "***** Initializing syslog *****\n".toList,
           Event.openlog "IOC".toList SyslogConst.LOG_CONS SyslogConst.LOG_DAEMON,
           Event.syslog SyslogConst.LOG_NOTICE "IOC started.".toList [],
           Event.clockInit,
           Event.threadInit,
           Event.printf "***** Executing EPICS startup script *****\n".toList,
           Event.ioccrfrRegister,
           Event.registerRecordDeviceDriverRegister,
           Event.malloc 200,
           Event.realloc
             (some ⟨200, "/TFTP/".toList ++ addr ++ "/epics/".toList ++ host ++ "/".toList⟩)
             (13 + addr.length + host.length + 1 + 1 + 6),
           Event.fopen path "r".toList]
          ++ (if env.fopen path = true then
                [Event.ioccrf (some ⟨path⟩) (some "st.cmd".toList), Event.fclose ⟨path⟩]
              else [Event.printf "Can't open script (st.cmd)\n".toList])
          ++ [Event.free (some ⟨13 + addr.length + host.length + 1 + 1 + 6, path⟩),
              Event.threadSleep 2,
              Event.ioccrf none none]
          ++ (if (env.ioccrf none none).isSome = true then
                [Event.vsyslog SyslogConst.LOG_ALERT
                   "Console command interpreter terminated".toList [],
                 Event.rtems_clock_get_ticks_per_second,
                 Event.rtems_task_wake_after env.ticksPerSecond,
                 Event.rtems_panic "Console command interpreter terminated".toList]
              else []) }) := by
  have hskip : skipDotSegments "st.cmd".toList = "st.cmd".toList := by decide
  have hlen : (skipDotSegments "st.cmd".toList).length = 6 := by decide
  have hp : path = "/TFTP/".toList ++ addr ++ "/epics/".toList ++ host ++ "/".toList
      ++ skipDotSegments "st.cmd".toList := by
    rw [hpath, hskip]; simp
  have hr1 : env.realloc (13 + addr.length + host.length + 1 + 1
      + (skipDotSegments "st.cmd".toList).length) = true := by rw [hlen]; exact hr
  have e1 := callStatus_returns Event.rtems_bsdnet_initialize_network
    Env.rtems_bsdnet_initialize_network r1 env hnet
  have e2 := callStatus_returns Event.rtems_bsdnet_initialize_tftp_filesystem
    Env.rtems_bsdnet_initialize_tftp_filesystem r2 env htftp
  have e3 := callStatus_returns (Event.rtems_bsdnet_synchronize_ntp 0 0)
    Env.rtems_bsdnet_synchronize_ntp r3 env hntp
  have e4 := call_returns Event.clockInit Env.clockInit env hclock
  have e5 := call_returns Event.threadInit Env.threadInit env hthread
  have e6 := call_returns Event.ioccrfrRegister Env.ioccrfrRegister env hreg
  have e7 := call_returns Event.registerRecordDeviceDriverRegister
    Env.registerRecordDeviceDriverRegister env hdrv
  have e8 := call_returns (Event.threadSleep 2) Env.threadSleep env hsleep
  have e9 : ∀ s : State, runScriptRTEMS "st.cmd".toList env s =
      (Outcome.returned (),
        { s with trace := s.trace ++
          [Event.malloc 200,
           Event.realloc
             (some ⟨200, "/TFTP/".toList ++ addr ++ "/epics/".toList ++ host ++ "/".toList⟩)
             (13 + addr.length + host.length + 1 + 1 + 6),
           Event.fopen path "r".toList]
          ++ (if env.fopen path = true then
                [Event.ioccrf (some ⟨path⟩) (some "st.cmd".toList), Event.fclose ⟨path⟩]
              else [Event.printf "Can't open script (st.cmd)\n".toList])
          ++ [Event.free (some ⟨13 + addr.length + host.length + 1 + 1 + 6, path⟩)] }) := by
    intro s
    by_cases hopen : env.fopen path = true
    · have hback := hscript hopen
      rw [hp] at hopen hback
      rw [runScript_opened "st.cmd".toList addr host env s hm ha hh hne hfit hr1 hopen hback,
        ← hp, hlen]
      rw [← hp] at hopen
      simp [hopen]
    · have hopen1 : env.fopen path = false := by simpa using hopen
      have hopen2 := hopen1
      rw [hp] at hopen2
      rw [runScript_closed "st.cmd".toList addr host env s hm ha hh hne hfit hr1 hopen2,
        ← hp, hlen]
      simp [hopen1]
  by_cases hcons : (env.ioccrf none none).isSome = true
  · have e10 := call_returns (Event.ioccrf none none)
      (fun env => (env.ioccrf none none).isSome) env hcons
    simp only [Init, bind, M.bind, emit_run, printf, syslog, ioccrf, e1, e2, e3, e4, e5, e6, e7,
      e8, e9, e10, LogFatal_run, hcons, if_true]
    simp
  · have hcons1 : (env.ioccrf none none).isSome = false := by simpa using hcons
    have e10 := call_keeps (Event.ioccrf none none)
      (fun env => (env.ioccrf none none).isSome) env hcons1
    simp only [Init, bind, M.bind, emit_run, printf, syslog, ioccrf, e1, e2, e3, e4, e5, e6, e7,
      e8, e9, e10, hcons1, if_false, Bool.false_eq_true]
    simp

/-- C10 on the sample node with a failing time synchronisation and a console
interpreter that comes back: all phases run in order and the run ends in
`rtems_panic`. -/
theorem Init_phase_order_witness :
    envNtpFails.rtems_bsdnet_synchronize_ntp = some (-1) ∧
    (Init 0 envNtpFails sampleState).1
      = Outcome.fatal "Console command interpreter terminated".toList ∧
    (Init 0 envNtpFails sampleState).2.trace =
      [Event.putenv "TERM=xterm".toList,
       Event.putenv "PS1=rtems> ".toList,
       Event.putenv "HISTSIZE=10".toList,
       Event.putenv "IFS= \t,()".toList,
       Event.printf "***** Initializing network *****\n".toList,
       Event.rtems_bsdnet_initialize_network,
       Event.printf "***** Initializing TFTP *****\n".toList,
       Event.rtems_bsdnet_initialize_tftp_filesystem,
       Event.printf "***** Initializing NTP *****\n".toList,
       Event.rtems_bsdnet_synchronize_ntp 0 0,
       Event.printf "***** Initializing syslog *****\n".toList,
       Event.openlog "IOC".toList SyslogConst.LOG_CONS SyslogConst.LOG_DAEMON,
       Event.syslog SyslogConst.LOG_NOTICE "IOC started.".toList [],
       Event.clockInit,
       Event.threadInit,
       Event.printf "***** Executing EPICS startup script *****\n".toList,
       Event.ioccrfrRegister,
       Event.registerRecordDeviceDriverRegister,
       Event.malloc 200,
       Event.realloc (some ⟨200, "/TFTP/192.168.1.1/epics/ioc1/".toList⟩) 36,
       Event.fopen "/TFTP/192.168.1.1/epics/ioc1/st.cmd".toList "r".toList,
       Event.ioccrf (some ⟨"/TFTP/192.168.1.1/epics/ioc1/st.cmd".toList⟩)
         (some "st.cmd".toList),
       Event.fclose ⟨"/TFTP/192.168.1.1/epics/ioc1/st.cmd".toList⟩,
       Event.free (some ⟨36, "/TFTP/192.168.1.1/epics/ioc1/st.cmd".toList⟩),
       Event.threadSleep 2,
       Event.ioccrf none none,
       Event.vsyslog SyslogConst.LOG_ALERT "Console command interpreter terminated".toList [],
       Event.rtems_clock_get_ticks_per_second,
       Event.rtems_task_wake_after 50,
       Event.rtems_panic "Console command interpreter terminated".toList] := by
  have h := Init_phase_order 0 "192.168.1.1".toList "ioc1".toList
    "/TFTP/192.168.1.1/epics/ioc1/st.cmd".toList envNtpFails sampleState 0 0 (-1)
    rfl rfl rfl rfl rfl rfl rfl rfl rfl rfl (by decide) (by decide) rfl (by decide)
    (fun _ => rfl) rfl
  rw [h]
  exact ⟨rfl, by decide, by decide⟩

theorem bind_emit_run {β : Type} (e : Event) (f : Unit → M β) (env : Env) (s : State) :
    (emit e >>= f) env s = f () env { s with trace := s.trace ++ [e] } := rfl

theorem bind_printf_run {β : Type} (text : List Char) (f : Unit → M β) (env : Env) (s : State) :
    (printf text >>= f) env s = f () env { s with trace := s.trace ++ [Event.printf text] } :=
  rfl

theorem bind_callStatus_returns {β : Type} (e : Event) (answer : Env → Option Int)
    (status : Int) (f : Int → M β) (env : Env) (h : answer env = some status) (s : State) :
    (callStatus e answer >>= f) env s = f status env { s with trace := s.trace ++ [e] } := by
  show M.bind (callStatus e answer) f env s = _
  simp [M.bind, callStatus, h]

theorem bind_callStatus_keeps {β : Type} (e : Event) (answer : Env → Option Int)
    (f : Int → M β) (env : Env) (h : answer env = none) (s : State) :
    (callStatus e answer >>= f) env s
      = (Outcome.noreturn, { s with trace := s.trace ++ [e] }) := by
  show M.bind (callStatus e answer) f env s = _
  simp [M.bind, callStatus, h]

/-- C4 at its counterexample: on the sample node with a network bring-up that
reports failure, `Init` goes on to the mount and to every later step, up to the
console interpreter; `rtems_panic` is never called. -/
theorem Init_mounts_after_network_failure :
    envNetworkFails.rtems_bsdnet_initialize_network = some (-1) ∧
    (Init 0 envNetworkFails sampleState).1 = Outcome.noreturn ∧
    (Init 0 envNetworkFails sampleState).2.trace =
      [Event.putenv "TERM=xterm".toList,
       Event.putenv "PS1=rtems> ".toList,
       Event.putenv "HISTSIZE=10".toList,
       Event.putenv "IFS= \t,()".toList,
       Event.printf "***** Initializing network *****\n".toList,
       Event.rtems_bsdnet_initialize_network,
       Event.printf "***** Initializing TFTP *****\n".toList,
       Event.rtems_bsdnet_initialize_tftp_filesystem,
       Event.printf "***** Initializing NTP *****\n".toList,
       Event.rtems_bsdnet_synchronize_ntp 0 0,
       Event.printf "***** Initializing syslog *****\n".toList,
       Event.openlog "IOC".toList SyslogConst.LOG_CONS SyslogConst.LOG_DAEMON,
       Event.syslog SyslogConst.LOG_NOTICE "IOC started.".toList [],
       Event.clockInit,
       Event.threadInit,
       Event.printf "***** Executing EPICS startup script *****\n".toList,
       Event.ioccrfrRegister,
       Event.registerRecordDeviceDriverRegister,
       Event.malloc 200,
       Event.realloc (some ⟨200, "/TFTP/192.168.1.1/epics/ioc1/".toList⟩) 36,
       Event.fopen "/TFTP/192.168.1.1/epics/ioc1/st.cmd".toList "r".toList,
       Event.ioccrf (some ⟨"/TFTP/192.168.1.1/epics/ioc1/st.cmd".toList⟩)
         (some "st.cmd".toList),
       Event.fclose ⟨"/TFTP/192.168.1.1/epics/ioc1/st.cmd".toList⟩,
       Event.free (some ⟨36, "/TFTP/192.168.1.1/epics/ioc1/st.cmd".toList⟩),
       Event.threadSleep 2,
       Event.ioccrf none none] := by
  decide

/-- C4 as amended.  `Init` does not look at what network bring-up reports.
Whenever `rtems_bsdnet_initialize_network` comes back, with whatever status,
the next calls of `Init` are the TFTP banner and the mount.  Only when the
bring-up call keeps control is the mount not attempted; the run then ends
there, with none of the later calls and without `rtems_panic`. -/
theorem Init_ignores_network_status (ignored : Nat) (env : Env) (s : State) :
    (∀ status, env.rtems_bsdnet_initialize_network = some status →
      (s.trace ++
        [Event.putenv "TERM=xterm".toList,
         Event.putenv "PS1=rtems> ".toList,
         Event.putenv "HISTSIZE=10".toList,
         Event.putenv "IFS= \t,()".toList,
         Event.printf "***** Initializing network *****\n".toList,
         Event.rtems_bsdnet_initialize_network,
         Event.printf "***** Initializing TFTP *****\n".toList,
         Event.rtems_bsdnet_initialize_tftp_filesystem]) <+: (Init ignored env s).2.trace) ∧
    (env.rtems_bsdnet_initialize_network = none →
      Init ignored env s =
        (Outcome.noreturn,
          { s with trace := s.trace ++
            [Event.putenv "TERM=xterm".toList,
             Event.putenv "PS1=rtems> ".toList,
             Event.putenv "HISTSIZE=10".toList,
             Event.putenv "IFS= \t,()".toList,
             Event.printf "***** Initializing network *****\n".toList,
             Event.rtems_bsdnet_initialize_network] })) := by
  constructor
  · intro status hnet
    cases htftp : env.rtems_bsdnet_initialize_tftp_filesystem with
    | none =>
      simp only [Init, bind_emit_run, bind_printf_run,
        bind_callStatus_returns _ _ status _ env hnet,
        bind_callStatus_keeps _ _ _ env htftp]
      simp
    | some status2 =>
      simp only [Init, bind_emit_run, bind_printf_run,
        bind_callStatus_returns _ _ status _ env hnet,
        bind_callStatus_returns _ _ status2 _ env htftp]
      refine List.IsPrefix.trans ?_ (TraceGrows.grows ?_ env _)
      · simp
      · repeat' first
          | with_reducible exact grows_pure _
          | with_reducible exact grows_emit _
          | with_reducible exact grows_printf _
          | with_reducible exact grows_syslog _ _ _
          | with_reducible exact grows_call _ _
          | with_reducible exact grows_callStatus _ _
          | with_reducible exact grows_ioccrf _ _
          | with_reducible exact grows_runScriptRTEMS _
          | with_reducible exact grows_LogFatal _ _
          | with_reducible apply grows_bind
          | intro _
  · intro hnet
    simp only [Init, bind_emit_run, bind_printf_run, bind_callStatus_keeps _ _ _ env hnet]
    simp

end RtemsInit
